import Mathlib

/-!
A verification development for the `mapkit-js-typescript` repository.

The repository consists of three TypeScript ambient declaration files
(`src/mapkit.d.ts`, `src/unnamed/part_000`, `src/unnamed/part_001`) and
contains no executable code: every declaration is a type shape.  We
therefore embed the declaration surface itself — classes, interfaces,
enums, functions, variables, together with their member signatures and
type expressions — as explicit Lean data, transcribed declaration by
declaration from the source files, and settle the specification's claims
as decidable properties of that data.

Conventions of the embedding:
  * TypeScript type expressions are the inductive `Ty`.  Parameter lists
    occurring inside function types are encoded by the `Ty.pnil` /
    `Ty.pcons` constructors (name, optionality flag, annotated type);
    a parameter written without a type annotation is recorded as
    `Ty.noAnn` (TypeScript treats it as an implicit `any`, but we keep
    the distinction so that the embedding mirrors the text of the file).
  * A union type `A | B | C` is encoded right-associated.
  * Namespaced declarations (`namespace Map { enum MapTypes … }`) are
    embedded with dotted names such as `"Map.MapTypes"`.
  * Declaration modifiers (`export`, `declare`, `abstract`, `let`
    versus `const`) are not recorded; no claim refers to them.
  * Members and declarations appear in source order.
  * Every method, constructor and function declaration carries a
    `body : Option Unit`; all three source files are declaration files
    and contain no function bodies, so the transcription always records
    `none` — mirroring the source, where only signatures occur.
-/

namespace TS

/-- A TypeScript type expression.  `pnil` / `pcons` encode the parameter
lists of function types, `noAnn` marks a missing type annotation. -/
inductive Ty where
  | named : String → Ty
  | union : Ty → Ty → Ty
  | array : Ty → Ty
  | app1 : String → Ty → Ty
  | tuple1 : Ty → Ty
  | keyofTy : Ty → Ty
  | indexTy : Ty → Ty → Ty
  | obj2 : String → Ty → String → Ty → Ty
  | noAnn : Ty
  | fn : Ty → Ty → Ty
  | pnil : Ty
  | pcons : String → Bool → Ty → Ty → Ty
  deriving DecidableEq, Repr

/-- A value (non-type) parameter of a method, constructor or function:
name, annotated type (`none` when the annotation is absent in the
source), and whether it is optional (`?`). -/
structure Param where
  name : String
  ty : Option Ty
  optional : Bool
  deriving DecidableEq, Repr

/-- A type parameter (generic), with its optional `extends` constraint. -/
structure TParam where
  name : String
  constraint : Option Ty
  deriving DecidableEq, Repr

/-- The initializer of an enum member. -/
inductive EnumVal where
  | str : String → EnumVal
  | int : Int → EnumVal
  deriving DecidableEq, Repr

/-- One member of an enum declaration. -/
structure EnumMember where
  name : String
  val : EnumVal
  deriving DecidableEq, Repr

/-- A member of a class or interface body. -/
inductive Member where
  | field (name : String) (ty : Option Ty) (optional : Bool)
  | method (name : String) (tparams : List TParam) (params : List Param)
      (ret : Option Ty) (optional : Bool) (body : Option Unit)
  | ctor (params : List Param) (body : Option Unit)
  deriving DecidableEq, Repr

/-- A top-level declaration of one of the files. -/
inductive Decl where
  | classDecl (name : String) (tparams : List String) (parent : Option Ty)
      (impls : List String) (members : List Member)
  | interfaceDecl (name : String) (parents : List String) (members : List Member)
  | enumDecl (name : String) (members : List EnumMember)
  | funDecl (name : String) (tparams : List TParam) (params : List Param)
      (ret : Option Ty) (body : Option Unit)
  | varDecl (name : String) (ty : Ty)
  | typeAlias (name : String) (ty : Ty)
  deriving DecidableEq, Repr

/-! Shorthand used by the transcriptions. -/

/-- `number` -/
def tNum : Ty := Ty.named "number"

/-- `string` -/
def tStr : Ty := Ty.named "string"

/-- `boolean` -/
def tBool : Ty := Ty.named "boolean"

/-- `void` -/
def tVoid : Ty := Ty.named "void"

/-- `any` -/
def tAny : Ty := Ty.named "any"

/-- `null` -/
def tNull : Ty := Ty.named "null"

/-- A named type. -/
def tN (s : String) : Ty := Ty.named s

/-- An array type `t[]`. -/
def arr (t : Ty) : Ty := Ty.array t

/-- A union type. -/
def u (a b : Ty) : Ty := Ty.union a b

/-- Encode a parameter list of a function type: entries are
(name, optional flag, annotated type or `noAnn`). -/
def pl (l : List (String × Bool × Ty)) : Ty :=
  l.foldr (fun x r => Ty.pcons x.1 x.2.1 x.2.2 r) Ty.pnil

/-- A function type `(params) => ret`. -/
def fnT (l : List (String × Bool × Ty)) (ret : Ty) : Ty := Ty.fn (pl l) ret

/-- A required, annotated parameter. -/
def pr (n : String) (t : Ty) : Param := ⟨n, some t, false⟩

/-- An optional (`?`) annotated parameter. -/
def po (n : String) (t : Ty) : Param := ⟨n, some t, true⟩

/-- A required field member. -/
def fld (n : String) (t : Ty) : Member := Member.field n (some t) false

/-- An optional (`?`) field member. -/
def fldOpt (n : String) (t : Ty) : Member := Member.field n (some t) true

/-- A field member written with no type annotation. -/
def fldNoTy (n : String) : Member := Member.field n none false

/-- A method with a declared return type. -/
def mth (n : String) (ps : List Param) (r : Ty) : Member :=
  Member.method n [] ps (some r) false none

/-- A method declared without a return type annotation. -/
def mthNR (n : String) (ps : List Param) : Member :=
  Member.method n [] ps none false none

/-- An optional (`?`) method with a declared return type. -/
def mthOpt (n : String) (ps : List Param) (r : Ty) : Member :=
  Member.method n [] ps (some r) true none

/-- An optional (`?`) method declared without a return type annotation. -/
def mthOptNR (n : String) (ps : List Param) : Member :=
  Member.method n [] ps none true none

/-- A generic method with a declared return type. -/
def gmth (n : String) (tps : List TParam) (ps : List Param) (r : Ty) : Member :=
  Member.method n tps ps (some r) false none

/-- A constructor member. -/
def ctorM (ps : List Param) : Member := Member.ctor ps none

/-- A class declaration without parent, type parameters or `implements`. -/
def cls (n : String) (ms : List Member) : Decl := Decl.classDecl n [] none [] ms

/-- A class declaration with an `extends` clause. -/
def clsE (n : String) (p : Ty) (ms : List Member) : Decl :=
  Decl.classDecl n [] (some p) [] ms

/-- A class declaration with an `implements` clause. -/
def clsI (n : String) (is : List String) (ms : List Member) : Decl :=
  Decl.classDecl n [] none is ms

/-- An interface declaration without an `extends` clause. -/
def ifc (n : String) (ms : List Member) : Decl := Decl.interfaceDecl n [] ms

/-- An interface declaration with an `extends` clause. -/
def ifcE (n : String) (ps : List String) (ms : List Member) : Decl :=
  Decl.interfaceDecl n ps ms

/-- An enum declaration. -/
def enm (n : String) (ms : List EnumMember) : Decl := Decl.enumDecl n ms

/-- A string-valued enum member. -/
def eS (n v : String) : EnumMember := ⟨n, EnumVal.str v⟩

/-- An integer-valued enum member. -/
def eI (n : String) (v : Int) : EnumMember := ⟨n, EnumVal.int v⟩

/-- A function declaration with a declared return type. -/
def fnD (n : String) (ps : List Param) (r : Ty) : Decl :=
  Decl.funDecl n [] ps (some r) none

/-- A function declaration without a return type annotation. -/
def fnDNR (n : String) (ps : List Param) : Decl :=
  Decl.funDecl n [] ps none none

/-- A generic function declaration with a declared return type. -/
def gfnD (n : String) (tps : List TParam) (ps : List Param) (r : Ty) : Decl :=
  Decl.funDecl n tps ps (some r) none

end TS

namespace Src

open TS

/-! ## Transcription of `src/mapkit.d.ts` -/

namespace MK

/-- mapkit.d.ts line 7: `function init(options: MapKitInitOptions): void;` -/
def initDecl : Decl := fnD "init" [pr "options" (tN "MapKitInitOptions")] tVoid

/-- mapkit.d.ts line 10: `function addEventListener(type: string, listener: (Event) => void, thisObject?: any)` —
no return annotation; the listener's parameter is written `(Event)`, i.e. a
parameter named `Event` with no type annotation. -/
def addEventListenerDecl : Decl :=
  fnDNR "addEventListener"
    [pr "type" tStr, pr "listener" (fnT [("Event", false, Ty.noAnn)] tVoid),
     po "thisObject" tAny]

/-- mapkit.d.ts line 13: `function removeEventListener(...)` — same shape. -/
def removeEventListenerDecl : Decl :=
  fnDNR "removeEventListener"
    [pr "type" tStr, pr "listener" (fnT [("Event", false, Ty.noAnn)] tVoid),
     po "thisObject" tAny]

/-- mapkit.d.ts line 15: `type maps = [Map]` -/
def mapsDecl : Decl := Decl.typeAlias "maps" (Ty.tuple1 (tN "Map"))

/-- mapkit.d.ts lines 17-26: `interface MapKitInitOptions`. -/
def mapKitInitOptionsDecl : Decl :=
  ifc "MapKitInitOptions"
    [fld "authorizationCallback"
       (fnT [("done", false, fnT [("jwt", false, tStr)] tVoid)] tVoid),
     fldOpt "language" tStr]

/-- mapkit.d.ts lines 28-49: `class Coordinate`. -/
def coordinateDecl : Decl :=
  cls "Coordinate"
    [ctorM [pr "latitude" tNum, pr "longitude" tNum],
     fld "latitude" tNum,
     fld "longitude" tNum,
     mth "copy" [] (tN "Coordinate"),
     mth "equals" [pr "other" (tN "Coordinate")] tBool,
     mth "toMapPoint" [] (tN "MapPoint"),
     mth "toUnwrappedMapPoint" [] (tN "MapPoint")]

/-- mapkit.d.ts lines 51-125: `interface MapConstructorOptions`. -/
def mapConstructorOptionsDecl : Decl :=
  ifc "MapConstructorOptions"
    [fldOpt "visibleMapRect" (tN "MapRect"),
     fldOpt "region" (tN "CoordinateRegion"),
     fldOpt "center" (tN "Coordinate"),
     fldOpt "rotation" tNum,
     fldOpt "tintColor" tStr,
     fldOpt "colorScheme" (tN "Map.ColorSchemes"),
     fldOpt "mapType" (tN "Map.MapTypes"),
     fldOpt "padding" (tN "Padding"),
     fldOpt "showsMapTypeControl" tBool,
     fldOpt "isRotationEnabled" tBool,
     fldOpt "showsCompass" (tN "FeatureVisibility"),
     fldOpt "isZoomEnabled" tBool,
     fldOpt "showsZoomControl" tBool,
     fldOpt "isScrollEnabled" tBool,
     fldOpt "showsScale" (tN "FeatureVisibility"),
     fldOpt "annotationForCluster" (tN "Annotation"),
     fldOpt "annotations" (arr (tN "Annotation")),
     fldOpt "selectedAnnotation" (u (tN "Annotation") tNull),
     fldOpt "overlays" (arr (tN "Overlay")),
     fldOpt "selectedOverlay" (u (tN "Overlay") tNull),
     fldOpt "showsPointsOfInterest" tBool,
     fldOpt "showsUserLocation" tBool,
     fldOpt "tracksUserLocation" tBool,
     fldOpt "showsUserLocationControl" tBool]

/-- mapkit.d.ts lines 128-293: `class Map`. -/
def mapDecl : Decl :=
  cls "Map"
    [ctorM [po "parent" (u tStr (tN "Element")), po "options" (tN "MapConstructorOptions")],
     mthNR "addEventListener"
       [pr "type" tStr, pr "listener" (fnT [("Map", false, Ty.noAnn)] tVoid),
        po "thisObject" tAny],
     mthNR "removeEventListener"
       [pr "type" tStr, pr "listener" (fnT [("Map", false, Ty.noAnn)] tVoid),
        po "thisObject" tAny],
     fld "isRotationAvailable" tBool,
     fld "isRotationEnabled" tBool,
     fld "isScrollEnabled" tBool,
     fld "isZoomEnabled" tBool,
     fld "center" (tN "Coordinate"),
     mth "setCenterAnimated" [pr "coordinate" (tN "Coordinate"), po "animate" tBool] (tN "Map"),
     fld "region" (tN "CoordinateRegion"),
     mth "setRegionAnimated" [pr "egion" (tN "CoordinateRegion"), po "animate" tBool] (tN "Map"),
     fld "rotation" tNum,
     mth "setRotationAnimated" [pr "degrees" tNum, po "animate" tBool] (tN "Map"),
     fld "visibleMapRect" (tN "MapRect"),
     mth "setVisibleMapRectAnimated" [pr "mapRect" (tN "MapRect"), po "animate" tBool] (tN "Map"),
     fld "colorScheme" (tN "Map.ColorSchemes"),
     fld "distances" (tN "Map.Distances"),
     fld "mapType" (tN "Map.MapTypes"),
     fld "padding" (tN "Padding"),
     fld "showsCompass" (tN "FeatureVisibility"),
     fld "showsMapTypeControl" tBool,
     fld "showsZoomControl" tBool,
     fld "showsUserLocationControl" tBool,
     fld "showsPointsOfInterest" tBool,
     fld "showsScale" (tN "FeatureVisibility"),
     fld "tintColor" tStr,
     mthNR "showItems"
       [pr "items" (arr (u (tN "Annotation") (tN "Overlay"))),
        po "options" (tN "MapShowItemsOptions")],
     fldOpt "annotationForCluster" (tN "Annotation"),
     fldOpt "annotations" (arr (tN "Annotation")),
     fldOpt "selectedAnnotation" (u (tN "Annotation") tNull),
     mth "annotationsInMapRect" [pr "mapRect" (tN "MapRect")] (arr (tN "Annotation")),
     mthNR "addAnnotation" [pr "annotation" (tN "Annotation")],
     mthNR "addAnnotations" [pr "annotations" (arr (tN "Annotation"))],
     mthNR "removeAnnotation" [pr "annotation" (tN "Annotation")],
     mthNR "removeAnnotations" [pr "annotations" (arr (tN "Annotation"))],
     fld "overlays" (arr (tN "Overlay")),
     fld "selectedOverlay" (u (tN "Overlay") tNull),
     mth "overlaysAtPoint" [pr "point" (tN "DOMPoint")] (arr (tN "Overlay")),
     mthNR "addOverlay" [pr "overlay" (tN "Overlay")],
     mthNR "addOverlays" [pr "overlays" (arr (tN "Overlay"))],
     mthNR "removeOverlay" [pr "overlay" (tN "Overlay")],
     mthNR "removeOverlays" [pr "overlays" (arr (tN "Overlay"))],
     mth "topOverlayAtPoint" [pr "point" (tN "DOMPoint")] (tN "Overlay"),
     fld "tileOverlays" (arr (tN "TileOverlay")),
     mthNR "addTileOverlay" [pr "overlay" (tN "TileOverlay")],
     mthNR "addTileOverlays" [pr "overlays" (arr (tN "TileOverlay"))],
     mthNR "removeTileOverlay" [pr "overlay" (tN "TileOverlay")],
     mthNR "removeTileOverlays" [pr "overlays" (arr (tN "TileOverlay"))],
     fld "showsUserLocation" tBool,
     fld "tracksUserLocation" tBool,
     fld "userLocationAnnotation" (u (tN "Annotation") tNull),
     mth "convertCoordinateToPointOnPage" [pr "coordinate" (tN "Coordinate")] (tN "DOMPoint"),
     mth "convertPointOnPageToCoordinate" [pr "point" (tN "DOMPoint")] (tN "Coordinate"),
     mth "destroy" [] tVoid,
     fld "element" (tN "Element")]

/-- mapkit.d.ts lines 295-332: the `Map` namespace enums. -/
def mapTypesDecl : Decl :=
  enm "Map.MapTypes"
    [eS "Hybrid" "Hybrid", eS "Satellite" "Satellite",
     eS "Standard" "Standard", eS "MutedStandard" "MutedStandard"]

/-- mapkit.d.ts lines 312-319: `enum ColorSchemes` in namespace `Map`. -/
def colorSchemesDecl : Decl :=
  enm "Map.ColorSchemes" [eS "Light" "Light", eS "Dark" "Dark"]

/-- mapkit.d.ts lines 321-331: `enum Distances` in namespace `Map`. -/
def distancesDecl : Decl :=
  enm "Map.Distances"
    [eS "Adaptive" "Adaptive", eS "Metric" "Metric", eS "Imperial" "Imperial"]

/-- mapkit.d.ts lines 335-346: `interface MapShowItemsOptions`. -/
def mapShowItemsOptionsDecl : Decl :=
  ifc "MapShowItemsOptions"
    [fldOpt "animate" tBool,
     fldOpt "minimumSpan" (tN "CoordinateSpan"),
     fld "padding" (tN "Padding")]

/-- mapkit.d.ts lines 348-367: `class MapPoint`.  Note that `copy` is a
property of type `MapPoint` here, not a method. -/
def mapPointDecl : Decl :=
  cls "MapPoint"
    [ctorM [pr "x" tNum, pr "y" tNum],
     fld "x" tNum,
     fld "y" tNum,
     fld "copy" (tN "MapPoint"),
     mth "equals" [pr "other" (tN "MapPoint")] tBool,
     mth "toCoordinate" [] (tN "Coordinate")]

/-- mapkit.d.ts lines 370-376: `class MapSize`. -/
def mapSizeDecl : Decl :=
  cls "MapSize"
    [ctorM [pr "width" tNum, pr "height" tNum],
     fld "width" tNum,
     fld "height" tNum]

/-- mapkit.d.ts lines 379-418: `class MapRect`.  `scale` has no declared
return type here. -/
def mapRectDecl : Decl :=
  cls "MapRect"
    [ctorM [pr "x" tNum, pr "y" tNum, pr "width" tNum, pr "height" tNum],
     fld "origin" (tN "MapPoint"),
     fld "size" (tN "MapSize"),
     fld "maxX" tNum,
     fld "maxY" tNum,
     fld "midX" tNum,
     fld "midY" tNum,
     fld "minX" tNum,
     fld "minY" tNum,
     mth "copy" [] (tN "MapRect"),
     mth "equals" [pr "other" (tN "MapRect")] tBool,
     mthNR "scale" [pr "scaleFactor" tNum, pr "scaleCenter" (tN "MapPoint")],
     mth "toCoordinateRegion" [] (tN "CoordinateRegion")]

/-- mapkit.d.ts lines 421-442: `class CoordinateRegion`. -/
def coordinateRegionDecl : Decl :=
  cls "CoordinateRegion"
    [ctorM [pr "center" (tN "Coordinate"), pr "span" (tN "CoordinateSpan")],
     fld "center" (tN "Coordinate"),
     fld "span" (tN "CoordinateSpan"),
     mth "copy" [] (tN "CoordinateRegion"),
     mth "equals" [pr "other" (tN "CoordinateRegion")] tBool,
     mth "toBoundingRegion" [] (tN "BoundingRegion"),
     mth "toMapRect" [] (tN "MapRect")]

/-- mapkit.d.ts lines 445-458: `class CoordinateSpan`. -/
def coordinateSpanDecl : Decl :=
  cls "CoordinateSpan"
    [ctorM [pr "latitudeDelta" tNum, pr "longitudeDelta" tNum],
     fld "latitudeDelta" tNum,
     fld "longitudeDelta" tNum,
     mth "copy" [] (tN "CoordinateSpan"),
     mth "equals" [pr "other" (tN "CoordinateSpan")] tBool]

/-- mapkit.d.ts lines 461-473: `class BoundingRegion`. -/
def boundingRegionDecl : Decl :=
  cls "BoundingRegion"
    [ctorM [pr "northLatitude" tNum, pr "eastLongitude" tNum,
            pr "southLatitude" tNum, pr "westLongitude" tNum],
     fld "northLatitude" tNum,
     fld "eastLongitude" tNum,
     fld "southLatitude" tNum,
     fld "westLongitude" tNum,
     mth "copy" [] (tN "BoundingRegion"),
     mth "toCoordinateRegion" [] (tN "CoordinateRegion")]

/-- mapkit.d.ts lines 475-481: `interface PaddingConstructorOptions`. -/
def paddingConstructorOptionsDecl : Decl :=
  ifc "PaddingConstructorOptions"
    [fld "bottom" tNum, fld "left" tNum, fld "right" tNum, fld "top" tNum]

/-- mapkit.d.ts lines 483-498: `class Padding`. -/
def paddingDecl : Decl :=
  cls "Padding"
    [ctorM [po "options" (u (tN "PaddingConstructorOptions") (arr tNum))],
     fld "bottom" tNum,
     fld "left" tNum,
     fld "right" tNum,
     fld "top" tNum]

end MK

end Src

namespace Src

open TS

namespace MK

/-- mapkit.d.ts lines 500-553: `interface AnnotationConstructorOptions`. -/
def annotationConstructorOptionsDecl : Decl :=
  ifc "AnnotationConstructorOptions"
    [fldOpt "data" tAny,
     fldOpt "title" tStr,
     fldOpt "subtitle" tStr,
     fldOpt "anchorOffset" (tN "DOMPoint"),
     fldOpt "appearanceAnimation" tStr,
     fldOpt "displayPriority" tNum,
     fldOpt "size" (Ty.obj2 "height" tNum "width" tNum),
     fldOpt "visible" tBool,
     fldOpt "animates" tBool,
     fldOpt "draggable" tBool,
     fldOpt "enabled" tBool,
     fldOpt "selected" tBool,
     fldOpt "callout" (tN "AnnotationCalloutDelegate"),
     fldOpt "calloutEnabled" tBool,
     fldOpt "calloutOffset" (tN "DOMPoint"),
     fldOpt "clusteringIdentifier" tStr,
     fldOpt "collisionMode" (tN "Annotation.CollisionMode"),
     fldOpt "accessibilityLabel" tStr]

/-- mapkit.d.ts lines 558-609: `class Annotation`. -/
def annotationDecl : Decl :=
  cls "Annotation"
    [ctorM [pr "coordinate" (tN "Coordinate"), pr "factory" (tN "Function"),
            po "options" (tN "AnnotationConstructorOptions")],
     mthNR "addEventListener"
       [pr "type" tStr, pr "listener" (fnT [("Annotation", false, Ty.noAnn)] tVoid),
        po "thisObject" tAny],
     mthNR "removeEventListener"
       [pr "type" tStr, pr "listener" (fnT [("Annotation", false, Ty.noAnn)] tVoid),
        po "thisObject" tAny],
     fld "coordinate" (tN "Coordinate"),
     fld "data" tAny,
     fld "title" tStr,
     fld "subtitle" tStr,
     fld "anchorOffset" (tN "DOMPoint"),
     fld "appearanceAnimation" tStr,
     fld "displayPriority" tNum,
     fld "size" (Ty.obj2 "height" tNum "width" tNum),
     fld "visible" tBool,
     fld "animates" tBool,
     fld "draggable" tBool,
     fld "selected" tBool,
     fld "enabled" tBool,
     fld "map" (tN "Map"),
     fld "element" (tN "Element"),
     fld "callout" (tN "AnnotationCalloutDelegate"),
     fld "calloutEnabled" tBool,
     fld "calloutOffset" (tN "DOMPoint"),
     fld "memberAnnotations" (arr (tN "Annotation")),
     fld "clusteringIdentifier" tStr,
     fld "collisionMode" (tN "Annotation.CollisionMode"),
     fld "accessibilityLabel" tStr]

/-- mapkit.d.ts lines 613-623: `enum DisplayPriority` in namespace `Annotation`. -/
def displayPriorityDecl : Decl :=
  enm "Annotation.DisplayPriority"
    [eI "Low" 250, eI "High" 750, eI "Required" 1000]

/-- mapkit.d.ts lines 626-633: `enum CollisionMode` in namespace `Annotation`. -/
def collisionModeDecl : Decl :=
  enm "Annotation.CollisionMode" [eS "Circle" "Circle", eS "Rectangle" "Rectangle"]

/-- mapkit.d.ts lines 637-647: `interface _DisplayAsset`. -/
def displayAssetDecl : Decl :=
  ifc "_DisplayAsset" [fld "1" tStr, fldOpt "2" tStr, fldOpt "3" tStr]

/-- mapkit.d.ts lines 649-673: `class MarkerAnnotation extends Annotation`. -/
def markerAnnotationDecl : Decl :=
  clsE "MarkerAnnotation" (tN "Annotation")
    [ctorM [pr "coordinate" (tN "Coordinate"),
            po "options" (tN "MarkerAnnotationConstructorOptions")],
     fld "color" tStr,
     fld "glyphColor" tStr,
     fld "glyphImage" (tN "_DisplayAsset"),
     fld "glyphText" tStr,
     fld "selectedGlyphImage" (tN "_DisplayAsset"),
     fld "subtitleVisibility" (tN "FeatureVisibility"),
     fld "titleVisibility" (tN "FeatureVisibility")]

/-- mapkit.d.ts lines 675-698: `interface MarkerAnnotationConstructorOptions`. -/
def markerAnnotationConstructorOptionsDecl : Decl :=
  ifcE "MarkerAnnotationConstructorOptions" ["AnnotationConstructorOptions"]
    [fldOpt "color" tStr,
     fldOpt "glyphColor" tStr,
     fldOpt "glyphImage" (tN "_DisplayAsset"),
     fldOpt "glyphText" tStr,
     fldOpt "selectedGlyphImage" (tN "_DisplayAsset"),
     fldOpt "subtitleVisibility" (tN "FeatureVisibility"),
     fldOpt "titleVisibility" (tN "FeatureVisibility")]

/-- mapkit.d.ts lines 701-714: `class ImageAnnotation extends Annotation`. -/
def imageAnnotationDecl : Decl :=
  clsE "ImageAnnotation" (tN "Annotation")
    [ctorM [pr "coordinate" (tN "Coordinate"),
            po "options" (tN "ImageAnnotationConstructorOptions")],
     fld "url" (tN "_DisplayAsset")]

/-- mapkit.d.ts lines 716-727: `interface ImageAnnotationConstructorOptions`. -/
def imageAnnotationConstructorOptionsDecl : Decl :=
  ifcE "ImageAnnotationConstructorOptions" ["AnnotationConstructorOptions"]
    [fld "url" (tN "_DisplayAsset")]

/-- mapkit.d.ts lines 729-740: `enum FeatureVisibility`. -/
def featureVisibilityDecl : Decl :=
  enm "FeatureVisibility"
    [eS "Adaptive" "Adaptive", eS "Hidden" "Hidden", eS "Visible" "Visible"]

/-- mapkit.d.ts lines 742-757: `interface AnnotationCalloutDelegate` —
the body holds only a TODO comment. -/
def annotationCalloutDelegateDecl : Decl := ifc "AnnotationCalloutDelegate" []

/-- mapkit.d.ts lines 759-762: `class Overlay` — body is a TODO comment. -/
def overlayDecl : Decl := cls "Overlay" []

/-- mapkit.d.ts lines 764-767: `class CircleOverlay extends Overlay`. -/
def circleOverlayDecl : Decl := clsE "CircleOverlay" (tN "Overlay") []

/-- mapkit.d.ts lines 769-772: `class PolylineOverlay extends Overlay`. -/
def polylineOverlayDecl : Decl := clsE "PolylineOverlay" (tN "Overlay") []

/-- mapkit.d.ts lines 774-777: `class PolygonOverlay extends Overlay`. -/
def polygonOverlayDecl : Decl := clsE "PolygonOverlay" (tN "Overlay") []

/-- mapkit.d.ts lines 779-782: `class TileOverlay`. -/
def tileOverlayDecl : Decl := cls "TileOverlay" []

/-- mapkit.d.ts lines 784-788: `interface GeocoderConstructorOptions`. -/
def geocoderConstructorOptionsDecl : Decl :=
  ifc "GeocoderConstructorOptions"
    [fldOpt "getsUserLocation" tBool, fldOpt "language" tStr]

/-- mapkit.d.ts lines 790-793: `interface GeocodeResponse`. -/
def geocodeResponseDecl : Decl :=
  ifc "GeocodeResponse" [fld "results" (arr (tN "Place"))]

/-- mapkit.d.ts lines 795-803: `interface GeocoderLookupOptions`. -/
def geocoderLookupOptionsDecl : Decl :=
  ifc "GeocoderLookupOptions"
    [fldOpt "coordinate" (tN "Coordinate"),
     fldOpt "language" tStr,
     fldOpt "limitToCountries" tStr,
     fldOpt "region" (tN "CoordinateRegion")]

/-- mapkit.d.ts lines 805-808: `interface GeocoderReverseLookupOptions`. -/
def geocoderReverseLookupOptionsDecl : Decl :=
  ifc "GeocoderReverseLookupOptions" [fldOpt "language" tStr]

/-- mapkit.d.ts lines 810-826: `interface Place`.  Note that
`countryCode` is written with no type annotation here. -/
def placeDecl : Decl :=
  ifc "Place"
    [fld "name" tStr,
     fld "formattedAddress" tStr,
     fldNoTy "countryCode",
     fld "coordinate" (tN "Coordinate"),
     fld "region" (tN "CoordinateRegion")]

/-- mapkit.d.ts lines 828-841: `class Geocoder`.  The callbacks' `error`
parameters carry no type annotation; `reverseLookup` and `cancel` have no
declared return type. -/
def geocoderDecl : Decl :=
  cls "Geocoder"
    [ctorM [po "options" (tN "GeocoderConstructorOptions")],
     fld "getsUserLocation" tBool,
     fld "language" tStr,
     mth "lookup"
       [pr "place" tStr,
        pr "callback"
          (fnT [("error", false, Ty.noAnn), ("data", false, tN "GeocodeResponse")] tVoid),
        po "options" (tN "GeocoderLookupOptions")] tNum,
     mthNR "reverseLookup"
       [pr "coordinate" (tN "Coordinate"),
        pr "callback"
          (fnT [("error", false, Ty.noAnn), ("data", false, tN "GeocodeResponse")] tVoid),
        po "options" (tN "GeocoderReverseLookupOptions")],
     mthNR "cancel" [pr "id" tNum]]

/-- mapkit.d.ts lines 843-857: `interface SearchConstructorOptions`. -/
def searchConstructorOptionsDecl : Decl :=
  ifc "SearchConstructorOptions"
    [fldOpt "coordinate" (tN "Coordinate"),
     fldOpt "getsUserLocation" tBool,
     fldOpt "language" tStr,
     fldOpt "region" (tN "CoordinateRegion")]

/-- mapkit.d.ts lines 859-869: `interface SearchResponse`.  `query` is
optional here. -/
def searchResponseDecl : Decl :=
  ifc "SearchResponse"
    [fld "places" (arr (tN "Place")),
     fldOpt "query" tStr,
     fldOpt "boundingRegion" (tN "CoordinateRegion")]

/-- mapkit.d.ts lines 871-879: `interface SearchOptions`. -/
def searchOptionsDecl : Decl :=
  ifc "SearchOptions"
    [fldOpt "coordinate" (tN "Coordinate"),
     fldOpt "language" tStr,
     fldOpt "region" (tN "CoordinateRegion")]

/-- mapkit.d.ts lines 881-888: `interface SearchAutocompleteResult`. -/
def searchAutocompleteResultDecl : Decl :=
  ifc "SearchAutocompleteResult"
    [fldOpt "coordinate" (tN "Coordinate"),
     fld "displayLines" (arr tStr)]

/-- mapkit.d.ts lines 890-894: `interface SearchAutocompleteResponse`. -/
def searchAutocompleteResponseDecl : Decl :=
  ifc "SearchAutocompleteResponse"
    [fld "query" tStr,
     fld "results" (arr (tN "SearchAutocompleteResult"))]

/-- mapkit.d.ts lines 897-911: `interface SearchDelegate` — four optional
methods, none with a declared return type; the errors are typed `Error`. -/
def searchDelegateDecl : Decl :=
  ifc "SearchDelegate"
    [mthOptNR "autocompleteDidComplete" [pr "data" (tN "SearchAutocompleteResponse")],
     mthOptNR "autocompleteDidError" [pr "error" (tN "Error")],
     mthOptNR "searchDidComplete" [pr "data" (tN "SearchResponse")],
     mthOptNR "searchDidError" [pr "error" (tN "Error")]]

/-- mapkit.d.ts lines 914-922: `class Search`.  `search` and
`autocomplete` have no declared return type, and there is no `cancel`
member. -/
def searchDecl : Decl :=
  cls "Search"
    [ctorM [po "options" (tN "SearchConstructorOptions")],
     mthNR "search"
       [pr "query" (u tStr (tN "SearchAutocompleteResult")),
        pr "callback"
          (u (tN "SearchDelegate")
             (fnT [("error", false, Ty.noAnn), ("data", false, tN "SearchResponse")] tVoid)),
        po "options" (tN "SearchOptions")],
     mthNR "autocomplete"
       [pr "query" tStr,
        pr "callback"
          (u (tN "SearchDelegate")
             (fnT [("error", false, Ty.noAnn),
                   ("data", false, tN "SearchAutocompleteResponse")] tVoid)),
        po "options" (tN "SearchOptions")]]

/-- mapkit.d.ts lines 925-933: `class DOMPoint`. -/
def domPointDecl : Decl :=
  cls "DOMPoint"
    [ctorM [pr "x" tNum, pr "y" tNum],
     fld "w" tNum, fld "x" tNum, fld "y" tNum, fld "z" tNum]

end MK

/-- The declarations of `src/mapkit.d.ts`, in source order. -/
def mapkitDTs : List TS.Decl :=
  [MK.initDecl, MK.addEventListenerDecl, MK.removeEventListenerDecl, MK.mapsDecl,
   MK.mapKitInitOptionsDecl, MK.coordinateDecl, MK.mapConstructorOptionsDecl,
   MK.mapDecl, MK.mapTypesDecl, MK.colorSchemesDecl, MK.distancesDecl,
   MK.mapShowItemsOptionsDecl, MK.mapPointDecl, MK.mapSizeDecl, MK.mapRectDecl,
   MK.coordinateRegionDecl, MK.coordinateSpanDecl, MK.boundingRegionDecl,
   MK.paddingConstructorOptionsDecl, MK.paddingDecl,
   MK.annotationConstructorOptionsDecl, MK.annotationDecl,
   MK.displayPriorityDecl, MK.collisionModeDecl, MK.displayAssetDecl,
   MK.markerAnnotationDecl, MK.markerAnnotationConstructorOptionsDecl,
   MK.imageAnnotationDecl, MK.imageAnnotationConstructorOptionsDecl,
   MK.featureVisibilityDecl, MK.annotationCalloutDelegateDecl, MK.overlayDecl,
   MK.circleOverlayDecl, MK.polylineOverlayDecl, MK.polygonOverlayDecl,
   MK.tileOverlayDecl, MK.geocoderConstructorOptionsDecl, MK.geocodeResponseDecl,
   MK.geocoderLookupOptionsDecl, MK.geocoderReverseLookupOptionsDecl,
   MK.placeDecl, MK.geocoderDecl, MK.searchConstructorOptionsDecl,
   MK.searchResponseDecl, MK.searchOptionsDecl, MK.searchAutocompleteResultDecl,
   MK.searchAutocompleteResponseDecl, MK.searchDelegateDecl, MK.searchDecl,
   MK.domPointDecl]

end Src

namespace Src

open TS

/-! ## Declarations shared verbatim by `src/unnamed/part_000` and
`src/unnamed/part_001` (the two files differ only in brace placement and
comments on these declarations). -/

namespace SH

/-- part_000 lines 10-14 / part_001 lines 11-16: `interface MapKitError`. -/
def mapKitErrorDecl : Decl :=
  ifc "MapKitError" [fld "code" tNum, fld "message" tStr]

/-- part_000 lines 16-24 / part_001 lines 18-27: `interface SelectEventTypes`. -/
def selectEventTypesDecl : Decl :=
  ifc "SelectEventTypes"
    [fld "select" (u (tN "AnnotationEvent") (tN "OverlayEvent")),
     fld "deselect" (u (tN "AnnotationEvent") (tN "OverlayEvent"))]

/-- part_000 lines 26-33 / part_001 lines 29-37: `class MapKitEvented<T>`. -/
def mapKitEventedDecl : Decl :=
  Decl.classDecl "MapKitEvented" ["T"] none []
    [gmth "addEventListener" [⟨"K", some (Ty.keyofTy (tN "T"))⟩]
       [pr "type" (tN "K"),
        pr "listener" (fnT [("event", false, Ty.indexTy (tN "T") (tN "K"))] tVoid),
        po "thisObject" tAny] tVoid,
     gmth "removeEventListener" [⟨"K", some (Ty.keyofTy (tN "T"))⟩]
       [pr "type" (tN "K"),
        pr "listener" (fnT [("event", false, Ty.indexTy (tN "T") (tN "K"))] tVoid),
        po "thisObject" tAny] tVoid]

/-- part_000 line 36 / part_001 line 40: `export function init(options: MapKitInitOptions): void`. -/
def initDecl : Decl := fnD "init" [pr "options" (tN "MapKitInitOptions")] tVoid

/-- part_000 lines 38-45 / part_001 lines 42-49: `enum MapKitInitSuccessStatus`. -/
def mapKitInitSuccessStatusDecl : Decl :=
  enm "MapKitInitSuccessStatus"
    [eS "initialized" "Initialized", eS "refreshed" "Refreshed"]

/-- part_000 lines 47-54 / part_001 lines 51-58: `enum MapKitInitFailureStatus`. -/
def mapKitInitFailureStatusDecl : Decl :=
  enm "MapKitInitFailureStatus"
    [eS "unauthorized" "Unauthorized", eS "tooManyRequests" "Too Many Requests"]

/-- part_000 lines 56-58 / part_001 lines 60-63: `class MapKitInitSuccessEvent extends Event`. -/
def mapKitInitSuccessEventDecl : Decl :=
  clsE "MapKitInitSuccessEvent" (tN "Event")
    [fld "status" (tN "MapKitInitSuccessStatus")]

/-- part_000 lines 60-62 / part_001 lines 65-68: `class MapKitInitFailureEvent extends Event`. -/
def mapKitInitFailureEventDecl : Decl :=
  clsE "MapKitInitFailureEvent" (tN "Event")
    [fld "status" (tN "MapKitInitFailureStatus")]

/-- part_000 lines 64-67 / part_001 lines 70-74: `interface MapKitEventTypes`. -/
def mapKitEventTypesDecl : Decl :=
  ifc "MapKitEventTypes"
    [fld "configuration-change" (tN "MapKitInitSuccessEvent"),
     fld "error" (tN "MapKitInitFailureEvent")]

/-- part_000 line 70 / part_001 line 77: the generic module-level `addEventListener`. -/
def addEventListenerDecl : Decl :=
  gfnD "addEventListener" [⟨"K", some (Ty.keyofTy (tN "MapKitEventTypes"))⟩]
    [pr "type" (tN "K"),
     pr "listener"
       (fnT [("event", false, Ty.indexTy (tN "MapKitEventTypes") (tN "K"))] tVoid),
     po "thisObject" tAny] tVoid

/-- part_000 line 73 / part_001 line 80: the generic module-level `removeEventListener`. -/
def removeEventListenerDecl : Decl :=
  gfnD "removeEventListener" [⟨"K", some (Ty.keyofTy (tN "MapKitEventTypes"))⟩]
    [pr "type" (tN "K"),
     pr "listener"
       (fnT [("event", false, Ty.indexTy (tN "MapKitEventTypes") (tN "K"))] tVoid),
     po "thisObject" tAny] tVoid

/-- part_000 line 76 / part_001 line 83: `export let maps: Map[]`. -/
def mapsDecl : Decl := Decl.varDecl "maps" (arr (tN "Map"))

/-- part_000 line 79 / part_001 line 86: `export let language: string`. -/
def languageDecl : Decl := Decl.varDecl "language" tStr

/-- part_000 line 82 / part_001 line 89: `export const build: string`. -/
def buildDecl : Decl := Decl.varDecl "build" tStr

/-- part_000 lines 84-93 / part_001 lines 92-102: `interface MapKitInitOptions`. -/
def mapKitInitOptionsDecl : Decl :=
  ifc "MapKitInitOptions"
    [fld "authorizationCallback"
       (fnT [("done", false, fnT [("jwt", false, tStr)] tVoid)] tVoid),
     fldOpt "language" tStr]

/-- part_000 lines 95-117 / part_001 lines 105-127: `class Coordinate`. -/
def coordinateDecl : Decl :=
  cls "Coordinate"
    [ctorM [pr "latitude" tNum, pr "longitude" tNum],
     fld "latitude" tNum,
     fld "longitude" tNum,
     mth "copy" [] (tN "Coordinate"),
     mth "equals" [pr "other" (tN "Coordinate")] tBool,
     mth "toMapPoint" [] (tN "MapPoint"),
     mth "toUnwrappedMapPoint" [] (tN "MapPoint")]

/-- part_000 lines 119-193 / part_001 lines 130-204:
`interface MapConstructorOptions`.  Unlike mapkit.d.ts,
`annotationForCluster` is a function type returning `void | Annotation`,
and `selectedAnnotation` / `selectedOverlay` have no `| null`. -/
def mapConstructorOptionsDecl : Decl :=
  ifc "MapConstructorOptions"
    [fldOpt "visibleMapRect" (tN "MapRect"),
     fldOpt "region" (tN "CoordinateRegion"),
     fldOpt "center" (tN "Coordinate"),
     fldOpt "rotation" tNum,
     fldOpt "tintColor" tStr,
     fldOpt "colorScheme" (tN "Map.ColorSchemes"),
     fldOpt "mapType" (tN "Map.MapTypes"),
     fldOpt "padding" (tN "Padding"),
     fldOpt "showsMapTypeControl" tBool,
     fldOpt "isRotationEnabled" tBool,
     fldOpt "showsCompass" (tN "FeatureVisibility"),
     fldOpt "isZoomEnabled" tBool,
     fldOpt "showsZoomControl" tBool,
     fldOpt "isScrollEnabled" tBool,
     fldOpt "showsScale" (tN "FeatureVisibility"),
     fldOpt "annotationForCluster"
       (fnT [("clusterAnnotation", false, tN "Annotation")] (u tVoid (tN "Annotation"))),
     fldOpt "annotations" (arr (tN "Annotation")),
     fldOpt "selectedAnnotation" (tN "Annotation"),
     fldOpt "overlays" (arr (tN "Overlay")),
     fldOpt "selectedOverlay" (tN "Overlay"),
     fldOpt "showsPointsOfInterest" tBool,
     fldOpt "showsUserLocation" tBool,
     fldOpt "tracksUserLocation" tBool,
     fldOpt "showsUserLocationControl" tBool]

/-- part_000 lines 195-197 / part_001 lines 206-209: `class MapEvent extends Event`. -/
def mapEventDecl : Decl := clsE "MapEvent" (tN "Event") []

/-- part_000 lines 199-201 / part_001 lines 211-214: `class OverlayEvent extends Event`. -/
def overlayEventDecl : Decl :=
  clsE "OverlayEvent" (tN "Event") [fld "overlay" (tN "Overlay")]

/-- part_000 lines 203-206 / part_001 lines 216-220: `class UserLocationChangeEvent extends Event`. -/
def userLocationChangeEventDecl : Decl :=
  clsE "UserLocationChangeEvent" (tN "Event")
    [fld "coordinate" (tN "Coordinate"), fld "timestamp" (tN "Date")]

/-- part_000 lines 208-213 / part_001 lines 222-228: `enum LocationError`. -/
def locationErrorDecl : Decl :=
  enm "LocationError"
    [eI "PERMISSION_DENIED" 1, eI "POSITION_UNAVAILABLE" 2,
     eI "TIMEOUT" 3, eI "MAPKIT_NOT_INITIALIZED" 4]

/-- part_000 lines 215-218 / part_001 lines 230-234:
`class UserLocationErrorEvent implements MapKitError`. -/
def userLocationErrorEventDecl : Decl :=
  clsI "UserLocationErrorEvent" ["MapKitError"]
    [fld "code" (tN "LocationError"), fld "message" tStr]

/-- part_000 lines 220-231 / part_001 lines 236-248: `interface MapEventTypes`. -/
def mapEventTypesDecl : Decl :=
  ifcE "MapEventTypes"
    ["SelectEventTypes", "AnnotationEventWithoutSelectTypes", "OverlayEventWithoutSelectTypes"]
    [fld "region-change-start" (tN "MapEvent"),
     fld "region-change-end" (tN "MapEvent"),
     fld "scroll-start" (tN "MapEvent"),
     fld "scroll-end" (tN "MapEvent"),
     fld "zoom-start" (tN "MapEvent"),
     fld "zoom-end" (tN "MapEvent"),
     fld "map-type-change" (tN "MapEvent"),
     fld "user-location-change" (tN "UserLocationChangeEvent"),
     fld "user-location-error" (tN "UserLocationErrorEvent")]

end SH

end Src

namespace Src

open TS

namespace SH

/-- part_000 lines 233-393 / part_001 lines 250-411:
`class Map extends MapKitEvented<MapEventTypes>`.  Every add/remove
method has a declared return type here, `showItems` returns
`(Annotation | Overlay)[]`, and the DOM element type is `HTMLElement`. -/
def mapDecl : Decl :=
  clsE "Map" (Ty.app1 "MapKitEvented" (tN "MapEventTypes"))
    [ctorM [po "parent" (u tStr (tN "HTMLElement")), po "options" (tN "MapConstructorOptions")],
     fld "isRotationAvailable" tBool,
     fld "isRotationEnabled" tBool,
     fld "isScrollEnabled" tBool,
     fld "isZoomEnabled" tBool,
     fld "center" (tN "Coordinate"),
     mth "setCenterAnimated" [pr "coordinate" (tN "Coordinate"), po "animate" tBool] (tN "Map"),
     fld "region" (tN "CoordinateRegion"),
     mth "setRegionAnimated" [pr "egion" (tN "CoordinateRegion"), po "animate" tBool] (tN "Map"),
     fld "rotation" tNum,
     mth "setRotationAnimated" [pr "degrees" tNum, po "animate" tBool] (tN "Map"),
     fld "visibleMapRect" (tN "MapRect"),
     mth "setVisibleMapRectAnimated" [pr "mapRect" (tN "MapRect"), po "animate" tBool] (tN "Map"),
     fld "colorScheme" (tN "Map.ColorSchemes"),
     fld "distances" (tN "Map.Distances"),
     fld "mapType" (tN "Map.MapTypes"),
     fld "padding" (tN "Padding"),
     fld "showsCompass" (tN "FeatureVisibility"),
     fld "showsMapTypeControl" tBool,
     fld "showsZoomControl" tBool,
     fld "showsUserLocationControl" tBool,
     fld "showsPointsOfInterest" tBool,
     fld "showsScale" (tN "FeatureVisibility"),
     fld "tintColor" tStr,
     mth "showItems"
       [pr "items" (arr (u (tN "Annotation") (tN "Overlay"))),
        po "options" (tN "MapShowItemsOptions")]
       (arr (u (tN "Annotation") (tN "Overlay"))),
     fldOpt "annotationForCluster"
       (fnT [("clusterAnnotation", false, tN "Annotation")] (u tVoid (tN "Annotation"))),
     fldOpt "annotations" (arr (tN "Annotation")),
     fld "selectedAnnotation" (u (tN "Annotation") tNull),
     mth "annotationsInMapRect" [pr "mapRect" (tN "MapRect")] (arr (tN "Annotation")),
     mth "addAnnotation" [pr "annotation" (tN "Annotation")] (tN "Annotation"),
     mth "addAnnotations" [pr "annotations" (arr (tN "Annotation"))] (arr (tN "Annotation")),
     mth "removeAnnotation" [pr "annotation" (tN "Annotation")] (tN "Annotation"),
     mth "removeAnnotations" [pr "annotations" (arr (tN "Annotation"))] (arr (tN "Annotation")),
     fld "overlays" (arr (tN "Overlay")),
     fld "selectedOverlay" (u (tN "Overlay") tNull),
     mth "overlaysAtPoint" [pr "point" (tN "DOMPoint")] (arr (tN "Overlay")),
     mth "addOverlay" [pr "overlay" (tN "Overlay")] (tN "Overlay"),
     mth "addOverlays" [pr "overlays" (arr (tN "Overlay"))] (arr (tN "Overlay")),
     mth "removeOverlay" [pr "overlay" (tN "Overlay")] (tN "Overlay"),
     mth "removeOverlays" [pr "overlays" (arr (tN "Overlay"))] (arr (tN "Overlay")),
     mth "topOverlayAtPoint" [pr "point" (tN "DOMPoint")] (tN "Overlay"),
     fld "tileOverlays" (arr (tN "TileOverlay")),
     mth "addTileOverlay" [pr "overlay" (tN "TileOverlay")] (tN "TileOverlay"),
     mth "addTileOverlays" [pr "overlays" (arr (tN "TileOverlay"))] (arr (tN "TileOverlay")),
     mth "removeTileOverlay" [pr "overlay" (tN "TileOverlay")] (tN "TileOverlay"),
     mth "removeTileOverlays" [pr "overlays" (arr (tN "TileOverlay"))] (arr (tN "TileOverlay")),
     fld "showsUserLocation" tBool,
     fld "tracksUserLocation" tBool,
     fld "userLocationAnnotation" (u (tN "Annotation") tNull),
     mth "convertCoordinateToPointOnPage" [pr "coordinate" (tN "Coordinate")] (tN "DOMPoint"),
     mth "convertPointOnPageToCoordinate" [pr "point" (tN "DOMPoint")] (tN "Coordinate"),
     mth "destroy" [] tVoid,
     fld "element" (tN "HTMLElement")]

/-- part_000 lines 395-432 / part_001 lines 413-454: the `Map` namespace enums. -/
def mapTypesDecl : Decl :=
  enm "Map.MapTypes"
    [eS "Hybrid" "Hybrid", eS "Satellite" "Satellite",
     eS "Standard" "Standard", eS "MutedStandard" "MutedStandard"]

/-- `enum ColorSchemes` in namespace `Map`. -/
def colorSchemesDecl : Decl :=
  enm "Map.ColorSchemes" [eS "Light" "Light", eS "Dark" "Dark"]

/-- `enum Distances` in namespace `Map`. -/
def distancesDecl : Decl :=
  enm "Map.Distances"
    [eS "Adaptive" "Adaptive", eS "Metric" "Metric", eS "Imperial" "Imperial"]

/-- part_000 lines 435-446 / part_001 lines 457-467: `interface MapShowItemsOptions`. -/
def mapShowItemsOptionsDecl : Decl :=
  ifc "MapShowItemsOptions"
    [fldOpt "animate" tBool,
     fldOpt "minimumSpan" (tN "CoordinateSpan"),
     fld "padding" (tN "Padding")]

/-- part_000 lines 448-468 / part_001 lines 470-489: `class MapPoint`.
Here `copy` is a method. -/
def mapPointDecl : Decl :=
  cls "MapPoint"
    [ctorM [pr "x" tNum, pr "y" tNum],
     fld "x" tNum,
     fld "y" tNum,
     mth "copy" [] (tN "MapPoint"),
     mth "equals" [pr "other" (tN "MapPoint")] tBool,
     mth "toCoordinate" [] (tN "Coordinate")]

/-- part_000 lines 471-487 / part_001 lines 492-508: `class MapSize`.
`copy` is a property of type `MapSize` here. -/
def mapSizeDecl : Decl :=
  cls "MapSize"
    [ctorM [pr "width" tNum, pr "height" tNum],
     fld "width" tNum,
     fld "height" tNum,
     fld "copy" (tN "MapSize"),
     mth "equals" [pr "anotherSize" (tN "MapSize")] tBool]

/-- part_000 lines 490-529 / part_001 lines 511-551: `class MapRect`.
`scale` returns `MapRect` here. -/
def mapRectDecl : Decl :=
  cls "MapRect"
    [ctorM [pr "x" tNum, pr "y" tNum, pr "width" tNum, pr "height" tNum],
     fld "origin" (tN "MapPoint"),
     fld "size" (tN "MapSize"),
     fld "maxX" tNum,
     fld "maxY" tNum,
     fld "midX" tNum,
     fld "midY" tNum,
     fld "minX" tNum,
     fld "minY" tNum,
     mth "copy" [] (tN "MapRect"),
     mth "equals" [pr "other" (tN "MapRect")] tBool,
     mth "scale" [pr "scaleFactor" tNum, pr "scaleCenter" (tN "MapPoint")] (tN "MapRect"),
     mth "toCoordinateRegion" [] (tN "CoordinateRegion")]

/-- part_000 lines 532-553 / part_001 lines 554-576: `class CoordinateRegion`. -/
def coordinateRegionDecl : Decl :=
  cls "CoordinateRegion"
    [ctorM [pr "center" (tN "Coordinate"), pr "span" (tN "CoordinateSpan")],
     fld "center" (tN "Coordinate"),
     fld "span" (tN "CoordinateSpan"),
     mth "copy" [] (tN "CoordinateRegion"),
     mth "equals" [pr "other" (tN "CoordinateRegion")] tBool,
     mth "toBoundingRegion" [] (tN "BoundingRegion"),
     mth "toMapRect" [] (tN "MapRect")]

/-- part_000 lines 556-571 / part_001 lines 579-595: `class CoordinateSpan`. -/
def coordinateSpanDecl : Decl :=
  cls "CoordinateSpan"
    [ctorM [pr "latitudeDelta" tNum, pr "longitudeDelta" tNum],
     fld "latitudeDelta" tNum,
     fld "longitudeDelta" tNum,
     mth "copy" [] (tN "CoordinateSpan"),
     mth "equals" [pr "other" (tN "CoordinateSpan")] tBool]

/-- part_000 lines 574-595 / part_001 lines 598-620: `class BoundingRegion`. -/
def boundingRegionDecl : Decl :=
  cls "BoundingRegion"
    [ctorM [pr "northLatitude" tNum, pr "eastLongitude" tNum,
            pr "southLatitude" tNum, pr "westLongitude" tNum],
     fld "northLatitude" tNum,
     fld "eastLongitude" tNum,
     fld "southLatitude" tNum,
     fld "westLongitude" tNum,
     mth "copy" [] (tN "BoundingRegion"),
     mth "toCoordinateRegion" [] (tN "CoordinateRegion")]

/-- part_000 lines 597-603 / part_001 lines 623-636: `interface PaddingConstructorOptions`. -/
def paddingConstructorOptionsDecl : Decl :=
  ifc "PaddingConstructorOptions"
    [fld "bottom" tNum, fld "left" tNum, fld "right" tNum, fld "top" tNum]

/-- part_000 lines 605-620 / part_001 lines 639-655: `class Padding`. -/
def paddingDecl : Decl :=
  cls "Padding"
    [ctorM [po "options" (u (tN "PaddingConstructorOptions") (arr tNum))],
     fld "bottom" tNum,
     fld "left" tNum,
     fld "right" tNum,
     fld "top" tNum]

/-- part_000 lines 622-675 / part_001 lines 658-713: `interface AnnotationConstructorOptions`. -/
def annotationConstructorOptionsDecl : Decl :=
  ifc "AnnotationConstructorOptions"
    [fldOpt "data" tAny,
     fldOpt "title" tStr,
     fldOpt "subtitle" tStr,
     fldOpt "anchorOffset" (tN "DOMPoint"),
     fldOpt "appearanceAnimation" tStr,
     fldOpt "displayPriority" tNum,
     fldOpt "size" (Ty.obj2 "height" tNum "width" tNum),
     fldOpt "visible" tBool,
     fldOpt "animates" tBool,
     fldOpt "draggable" tBool,
     fldOpt "enabled" tBool,
     fldOpt "selected" tBool,
     fldOpt "callout" (tN "AnnotationCalloutDelegate"),
     fldOpt "calloutEnabled" tBool,
     fldOpt "calloutOffset" (tN "DOMPoint"),
     fldOpt "clusteringIdentifier" tStr,
     fldOpt "collisionMode" (tN "Annotation.CollisionMode"),
     fldOpt "accessibilityLabel" tStr]

/-- part_000 lines 677-679 / part_001 lines 715-718: `class AnnotationEvent extends Event`. -/
def annotationEventDecl : Decl :=
  clsE "AnnotationEvent" (tN "Event") [fld "annotation" (tN "Annotation")]

/-- part_000 lines 681-689 / part_001 lines 720-729: `interface AnnotationEventWithoutSelectTypes`. -/
def annotationEventWithoutSelectTypesDecl : Decl :=
  ifc "AnnotationEventWithoutSelectTypes"
    [fld "drag-start" (tN "AnnotationEvent"),
     fld "dragging" (tN "AnnotationEvent"),
     fld "drag-end" (tN "AnnotationEvent")]

/-- part_000 lines 691-694 / part_001 lines 731-735: `interface AnnotationEventTypes`. -/
def annotationEventTypesDecl : Decl :=
  ifcE "AnnotationEventTypes" ["SelectEventTypes", "AnnotationEventWithoutSelectTypes"]
    [fld "select" (tN "AnnotationEvent"),
     fld "deselect" (tN "AnnotationEvent")]

/-- part_000 lines 699-744 / part_001 lines 740-810:
`class Annotation extends MapKitEvented<AnnotationEventTypes>`. -/
def annotationDecl : Decl :=
  clsE "Annotation" (Ty.app1 "MapKitEvented" (tN "AnnotationEventTypes"))
    [ctorM [pr "coordinate" (tN "Coordinate"), pr "factory" (tN "Function"),
            po "options" (tN "AnnotationConstructorOptions")],
     fld "coordinate" (tN "Coordinate"),
     fld "data" tAny,
     fld "title" tStr,
     fld "subtitle" tStr,
     fld "anchorOffset" (tN "DOMPoint"),
     fld "appearanceAnimation" tStr,
     fld "displayPriority" tNum,
     fld "size" (Ty.obj2 "height" tNum "width" tNum),
     fld "visible" tBool,
     fld "animates" tBool,
     fld "draggable" tBool,
     fld "selected" tBool,
     fld "enabled" tBool,
     fld "map" (tN "Map"),
     fld "element" (tN "HTMLElement"),
     fld "callout" (tN "AnnotationCalloutDelegate"),
     fld "calloutEnabled" tBool,
     fld "calloutOffset" (tN "DOMPoint"),
     fld "memberAnnotations" (arr (tN "Annotation")),
     fld "clusteringIdentifier" tStr,
     fld "collisionMode" (tN "Annotation.CollisionMode"),
     fld "accessibilityLabel" tStr]

/-- part_000 lines 748-758 / part_001 lines 815-825: `enum DisplayPriority`
in namespace `Annotation`. -/
def displayPriorityDecl : Decl :=
  enm "Annotation.DisplayPriority"
    [eI "Low" 250, eI "High" 750, eI "Required" 1000]

/-- part_000 lines 761-768 / part_001 lines 828-836: `enum CollisionMode`
in namespace `Annotation`. -/
def collisionModeDecl : Decl :=
  enm "Annotation.CollisionMode" [eS "Circle" "Circle", eS "Rectangle" "Rectangle"]

/-- part_000 lines 864-875 / part_001 lines 922-932: `enum FeatureVisibility`. -/
def featureVisibilityDecl : Decl :=
  enm "FeatureVisibility"
    [eS "Adaptive" "Adaptive", eS "Hidden" "Hidden", eS "Visible" "Visible"]

/-- part_000 line 882 / part_001 line 1052: `interface OverlayEventWithoutSelectTypes {}`. -/
def overlayEventWithoutSelectTypesDecl : Decl :=
  ifc "OverlayEventWithoutSelectTypes" []

/-- part_000 lines 884-887 / part_001 lines 1054-1058: `interface OverlayEventTypes`. -/
def overlayEventTypesDecl : Decl :=
  ifcE "OverlayEventTypes" ["SelectEventTypes", "OverlayEventWithoutSelectTypes"]
    [fld "select" (tN "OverlayEvent"),
     fld "deselect" (tN "OverlayEvent")]

end SH

end Src

namespace Src

open TS

namespace SH

/-- part_000 lines 914-921 / part_001 lines 1201-1208: `interface GeocoderConstructorOptions`. -/
def geocoderConstructorOptionsDecl : Decl :=
  ifc "GeocoderConstructorOptions"
    [fldOpt "getsUserLocation" tBool, fldOpt "language" tStr]

/-- part_000 lines 923-926 / part_001 lines 1211-1215: `interface GeocodeResponse`. -/
def geocodeResponseDecl : Decl :=
  ifc "GeocodeResponse" [fld "results" (arr (tN "Place"))]

/-- part_000 lines 928-941 / part_001 lines 1218-1231: `interface GeocoderLookupOptions`. -/
def geocoderLookupOptionsDecl : Decl :=
  ifc "GeocoderLookupOptions"
    [fldOpt "coordinate" (tN "Coordinate"),
     fldOpt "language" tStr,
     fldOpt "limitToCountries" tStr,
     fldOpt "region" (tN "CoordinateRegion")]

/-- part_000 lines 943-946 / part_001 lines 1234-1238: `interface GeocoderReverseLookupOptions`. -/
def geocoderReverseLookupOptionsDecl : Decl :=
  ifc "GeocoderReverseLookupOptions" [fldOpt "language" tStr]

/-- part_000 lines 948-964 / part_001 lines 1241-1257: `interface Place`.
`countryCode` is typed `string` here. -/
def placeDecl : Decl :=
  ifc "Place"
    [fld "name" tStr,
     fld "formattedAddress" tStr,
     fld "countryCode" tStr,
     fld "coordinate" (tN "Coordinate"),
     fld "region" (tN "CoordinateRegion")]

/-- part_000 lines 966-984 / part_001 lines 1260-1279: `class Geocoder`.
Both lookups return `number`, the callbacks' errors are typed
`MapKitError`, and `cancel(id: number)` returns `boolean`. -/
def geocoderDecl : Decl :=
  cls "Geocoder"
    [ctorM [po "options" (tN "GeocoderConstructorOptions")],
     fld "getsUserLocation" tBool,
     fld "language" tStr,
     mth "lookup"
       [pr "place" tStr,
        pr "callback"
          (fnT [("error", false, tN "MapKitError"),
                ("data", false, tN "GeocodeResponse")] tVoid),
        po "options" (tN "GeocoderLookupOptions")] tNum,
     mth "reverseLookup"
       [pr "coordinate" (tN "Coordinate"),
        pr "callback"
          (fnT [("error", false, tN "MapKitError"),
                ("data", false, tN "GeocodeResponse")] tVoid),
        po "options" (tN "GeocoderReverseLookupOptions")] tNum,
     mth "cancel" [pr "id" tNum] tBool]

/-- part_000 lines 986-999 / part_001 lines 1282-1295: `interface SearchConstructorOptions`. -/
def searchConstructorOptionsDecl : Decl :=
  ifc "SearchConstructorOptions"
    [fldOpt "coordinate" (tN "Coordinate"),
     fldOpt "getsUserLocation" tBool,
     fldOpt "language" tStr,
     fldOpt "region" (tN "CoordinateRegion")]

/-- part_000 lines 1001-1017 / part_001 lines 1297-1314: `interface SearchResponse`.
`query` is required here. -/
def searchResponseDecl : Decl :=
  ifc "SearchResponse"
    [fld "places" (arr (tN "Place")),
     fld "query" tStr,
     fldOpt "boundingRegion" (tN "CoordinateRegion")]

/-- part_000 lines 1019-1029 / part_001 lines 1316-1327: `interface SearchOptions`. -/
def searchOptionsDecl : Decl :=
  ifc "SearchOptions"
    [fldOpt "coordinate" (tN "Coordinate"),
     fldOpt "language" tStr,
     fldOpt "region" (tN "CoordinateRegion")]

/-- part_000 lines 1031-1039 / part_001 lines 1329-1337: `interface SearchAutocompleteResult`. -/
def searchAutocompleteResultDecl : Decl :=
  ifc "SearchAutocompleteResult"
    [fldOpt "coordinate" (tN "Coordinate"),
     fld "displayLines" (arr tStr)]

/-- part_000 lines 1041-1049 / part_001 lines 1339-1347: `interface SearchAutocompleteResponse`. -/
def searchAutocompleteResponseDecl : Decl :=
  ifc "SearchAutocompleteResponse"
    [fld "query" tStr,
     fld "results" (arr (tN "SearchAutocompleteResult"))]

/-- part_000 lines 1051-1065 / part_001 lines 1349-1363: `interface SearchDelegate` —
four optional methods returning `void`; the errors are typed `MapKitError`. -/
def searchDelegateDecl : Decl :=
  ifc "SearchDelegate"
    [mthOpt "autocompleteDidComplete" [pr "data" (tN "SearchAutocompleteResponse")] tVoid,
     mthOpt "autocompleteDidError" [pr "error" (tN "MapKitError")] tVoid,
     mthOpt "searchDidComplete" [pr "data" (tN "SearchResponse")] tVoid,
     mthOpt "searchDidError" [pr "error" (tN "MapKitError")] tVoid]

/-- part_000 lines 1081-1090 / part_001 lines 1538-1547: `class DOMPoint`. -/
def domPointDecl : Decl :=
  cls "DOMPoint"
    [ctorM [pr "x" tNum, pr "y" tNum],
     fld "w" tNum, fld "x" tNum, fld "y" tNum, fld "z" tNum]

end SH

end Src

namespace Src

open TS

/-! ## Declarations particular to `src/unnamed/part_000` -/

namespace P0

/-- part_000 lines 772-782: `interface _DisplayAsset`. -/
def displayAssetDecl : Decl :=
  ifc "_DisplayAsset" [fld "1" tStr, fldOpt "2" tStr, fldOpt "3" tStr]

/-- part_000 lines 784-808: `class MarkerAnnotation extends Annotation`. -/
def markerAnnotationDecl : Decl :=
  clsE "MarkerAnnotation" (tN "Annotation")
    [ctorM [pr "coordinate" (tN "Coordinate"),
            po "options" (tN "MarkerAnnotationConstructorOptions")],
     fld "color" tStr,
     fld "glyphColor" tStr,
     fld "glyphImage" (tN "_DisplayAsset"),
     fld "glyphText" tStr,
     fld "selectedGlyphImage" (tN "_DisplayAsset"),
     fld "subtitleVisibility" (tN "FeatureVisibility"),
     fld "titleVisibility" (tN "FeatureVisibility")]

/-- part_000 lines 810-833: `interface MarkerAnnotationConstructorOptions`. -/
def markerAnnotationConstructorOptionsDecl : Decl :=
  ifcE "MarkerAnnotationConstructorOptions" ["AnnotationConstructorOptions"]
    [fldOpt "color" tStr,
     fldOpt "glyphColor" tStr,
     fldOpt "glyphImage" (tN "_DisplayAsset"),
     fldOpt "glyphText" tStr,
     fldOpt "selectedGlyphImage" (tN "_DisplayAsset"),
     fldOpt "subtitleVisibility" (tN "FeatureVisibility"),
     fldOpt "titleVisibility" (tN "FeatureVisibility")]

/-- part_000 lines 836-849: `class ImageAnnotation extends Annotation`. -/
def imageAnnotationDecl : Decl :=
  clsE "ImageAnnotation" (tN "Annotation")
    [ctorM [pr "coordinate" (tN "Coordinate"),
            po "options" (tN "ImageAnnotationConstructorOptions")],
     fld "url" (tN "_DisplayAsset")]

/-- part_000 lines 851-862: `interface ImageAnnotationConstructorOptions`. -/
def imageAnnotationConstructorOptionsDecl : Decl :=
  ifcE "ImageAnnotationConstructorOptions" ["AnnotationConstructorOptions"]
    [fld "url" (tN "_DisplayAsset")]

/-- part_000 lines 877-880: `interface AnnotationCalloutDelegate` — body
is a TODO comment. -/
def annotationCalloutDelegateDecl : Decl := ifc "AnnotationCalloutDelegate" []

/-- part_000 lines 889-892: `class Overlay` — body is a TODO comment. -/
def overlayDecl : Decl := cls "Overlay" []

/-- part_000 lines 894-897: `class CircleOverlay extends Overlay`. -/
def circleOverlayDecl : Decl := clsE "CircleOverlay" (tN "Overlay") []

/-- part_000 lines 899-902: `class PolylineOverlay extends Overlay`. -/
def polylineOverlayDecl : Decl := clsE "PolylineOverlay" (tN "Overlay") []

/-- part_000 lines 904-907: `class PolygonOverlay extends Overlay`. -/
def polygonOverlayDecl : Decl := clsE "PolygonOverlay" (tN "Overlay") []

/-- part_000 lines 909-912: `class TileOverlay`. -/
def tileOverlayDecl : Decl := cls "TileOverlay" []

/-- part_000 lines 1067-1078: `class Search`.  `search` and
`autocomplete` return `number`; there is no `cancel` member in this
file's `Search`. -/
def searchDecl : Decl :=
  cls "Search"
    [ctorM [po "options" (tN "SearchConstructorOptions")],
     mth "search"
       [pr "query" (u tStr (tN "SearchAutocompleteResult")),
        pr "callback"
          (u (tN "SearchDelegate")
             (fnT [("error", false, tN "MapKitError"),
                   ("data", false, tN "SearchResponse")] tVoid)),
        po "options" (tN "SearchOptions")] tNum,
     mth "autocomplete"
       [pr "query" tStr,
        pr "callback"
          (u (tN "SearchDelegate")
             (fnT [("error", false, tN "MapKitError"),
                   ("data", false, tN "SearchAutocompleteResponse")] tVoid)),
        po "options" (tN "SearchOptions")] tNum]

end P0

/-- The declarations of `src/unnamed/part_000`, in source order. -/
def part000 : List TS.Decl :=
  [SH.mapKitErrorDecl, SH.selectEventTypesDecl, SH.mapKitEventedDecl, SH.initDecl,
   SH.mapKitInitSuccessStatusDecl, SH.mapKitInitFailureStatusDecl,
   SH.mapKitInitSuccessEventDecl, SH.mapKitInitFailureEventDecl,
   SH.mapKitEventTypesDecl, SH.addEventListenerDecl, SH.removeEventListenerDecl,
   SH.mapsDecl, SH.languageDecl, SH.buildDecl, SH.mapKitInitOptionsDecl,
   SH.coordinateDecl, SH.mapConstructorOptionsDecl, SH.mapEventDecl,
   SH.overlayEventDecl, SH.userLocationChangeEventDecl, SH.locationErrorDecl,
   SH.userLocationErrorEventDecl, SH.mapEventTypesDecl, SH.mapDecl,
   SH.mapTypesDecl, SH.colorSchemesDecl, SH.distancesDecl,
   SH.mapShowItemsOptionsDecl, SH.mapPointDecl, SH.mapSizeDecl, SH.mapRectDecl,
   SH.coordinateRegionDecl, SH.coordinateSpanDecl, SH.boundingRegionDecl,
   SH.paddingConstructorOptionsDecl, SH.paddingDecl,
   SH.annotationConstructorOptionsDecl, SH.annotationEventDecl,
   SH.annotationEventWithoutSelectTypesDecl, SH.annotationEventTypesDecl,
   SH.annotationDecl, SH.displayPriorityDecl, SH.collisionModeDecl,
   P0.displayAssetDecl, P0.markerAnnotationDecl,
   P0.markerAnnotationConstructorOptionsDecl, P0.imageAnnotationDecl,
   P0.imageAnnotationConstructorOptionsDecl, SH.featureVisibilityDecl,
   P0.annotationCalloutDelegateDecl, SH.overlayEventWithoutSelectTypesDecl,
   SH.overlayEventTypesDecl, P0.overlayDecl, P0.circleOverlayDecl,
   P0.polylineOverlayDecl, P0.polygonOverlayDecl, P0.tileOverlayDecl,
   SH.geocoderConstructorOptionsDecl, SH.geocodeResponseDecl,
   SH.geocoderLookupOptionsDecl, SH.geocoderReverseLookupOptionsDecl,
   SH.placeDecl, SH.geocoderDecl, SH.searchConstructorOptionsDecl,
   SH.searchResponseDecl, SH.searchOptionsDecl, SH.searchAutocompleteResultDecl,
   SH.searchAutocompleteResponseDecl, SH.searchDelegateDecl, P0.searchDecl,
   SH.domPointDecl]

end Src

namespace Src

open TS

/-! ## Declarations particular to `src/unnamed/part_001` -/

namespace P1

/-- part_001 lines 839-849: `interface DisplayAsset` (no leading underscore
in this file). -/
def displayAssetDecl : Decl :=
  ifc "DisplayAsset" [fld "1" tStr, fldOpt "2" tStr, fldOpt "3" tStr]

/-- part_001 lines 852-877: `class MarkerAnnotation extends Annotation`. -/
def markerAnnotationDecl : Decl :=
  clsE "MarkerAnnotation" (tN "Annotation")
    [ctorM [pr "coordinate" (tN "Coordinate"),
            po "options" (tN "MarkerAnnotationConstructorOptions")],
     fld "color" tStr,
     fld "glyphColor" tStr,
     fld "glyphImage" (tN "DisplayAsset"),
     fld "glyphText" tStr,
     fld "selectedGlyphImage" (tN "DisplayAsset"),
     fld "subtitleVisibility" (tN "FeatureVisibility"),
     fld "titleVisibility" (tN "FeatureVisibility")]

/-- part_001 lines 880-902: `interface MarkerAnnotationConstructorOptions`. -/
def markerAnnotationConstructorOptionsDecl : Decl :=
  ifcE "MarkerAnnotationConstructorOptions" ["AnnotationConstructorOptions"]
    [fldOpt "color" tStr,
     fldOpt "glyphColor" tStr,
     fldOpt "glyphImage" (tN "DisplayAsset"),
     fldOpt "glyphText" tStr,
     fldOpt "selectedGlyphImage" (tN "DisplayAsset"),
     fldOpt "subtitleVisibility" (tN "FeatureVisibility"),
     fldOpt "titleVisibility" (tN "FeatureVisibility")]

/-- part_001 lines 905-912: `class ImageAnnotation extends Annotation`. -/
def imageAnnotationDecl : Decl :=
  clsE "ImageAnnotation" (tN "Annotation")
    [ctorM [pr "coordinate" (tN "Coordinate"),
            po "options" (tN "ImageAnnotationConstructorOptions")],
     fld "url" (tN "DisplayAsset")]

/-- part_001 lines 915-919: `interface ImageAnnotationConstructorOptions`. -/
def imageAnnotationConstructorOptionsDecl : Decl :=
  ifcE "ImageAnnotationConstructorOptions" ["AnnotationConstructorOptions"]
    [fld "url" (tN "DisplayAsset")]

/-- part_001 lines 934-959: `interface AnnotationCalloutDelegate` — fully
populated in this file. -/
def annotationCalloutDelegateDecl : Decl :=
  ifc "AnnotationCalloutDelegate"
    [mth "calloutAnchorOffsetForAnnotation"
       [pr "annotation" (tN "Annotation"),
        pr "size" (Ty.obj2 "width" tNum "height" tNum)] (tN "DOMPoint"),
     mth "calloutShouldAppearForAnnotation" [pr "annotation" (tN "Annotation")] tBool,
     mth "calloutShouldAnimateForAnnotation" [pr "annotation" (tN "Annotation")] tBool,
     mth "calloutAppearanceAnimationForAnnotation" [pr "annotation" (tN "Annotation")] tStr,
     mth "calloutContentForAnnotation" [pr "annotation" (tN "Annotation")] (tN "HTMLElement"),
     mth "calloutElementForAnnotation" [pr "annotation" (tN "Annotation")] (tN "HTMLElement"),
     mth "calloutLeftAccessoryForAnnotation" [pr "annotation" (tN "Annotation")] (tN "HTMLElement"),
     mth "calloutRightAccessoryForAnnotation" [pr "annotation" (tN "Annotation")] (tN "HTMLElement")]

/-- part_001 lines 961-965: `enum FillOpacityRule`. -/
def fillOpacityRuleDecl : Decl :=
  enm "FillOpacityRule" [eS "NonZero" "nonzero", eS "EvenOdd" "evenodd"]

/-- part_001 lines 967-972: `enum LineCapStyle`. -/
def lineCapStyleDecl : Decl :=
  enm "LineCapStyle" [eS "Butt" "butt", eS "Round" "round", eS "Square" "square"]

/-- part_001 lines 974-979: `enum LineJoinStyle`. -/
def lineJoinStyleDecl : Decl :=
  enm "LineJoinStyle" [eS "Miter" "miter", eS "Round" "round", eS "Bevel" "bevel"]

/-- part_001 lines 982-1013: `interface StyleConstructorOptions`. -/
def styleConstructorOptionsDecl : Decl :=
  ifc "StyleConstructorOptions"
    [fldOpt "fillColor" (u tStr tNull),
     fldOpt "fillOpacity" tNum,
     fldOpt "fillRule" (tN "FillOpacityRule"),
     fldOpt "lineCap" (tN "LineCapStyle"),
     fldOpt "lineDash" (arr tNum),
     fldOpt "lineDashOffset" tNum,
     fldOpt "lineJoin" (tN "LineJoinStyle"),
     fldOpt "lineWidth" tNum,
     fldOpt "strokeColor" tNum,
     fldOpt "strokeOpacity" tNum]

/-- part_001 lines 1016-1050: `class Style`. -/
def styleDecl : Decl :=
  cls "Style"
    [ctorM [po "options" (tN "StyleConstructorOptions")],
     fld "fillColor" (u tStr tNull),
     fld "fillOpacity" tNum,
     fld "fillRule" (tN "FillOpacityRule"),
     fld "lineCap" (tN "LineCapStyle"),
     fld "lineDash" (arr tNum),
     fld "lineDashOffset" tNum,
     fld "lineJoin" (tN "LineJoinStyle"),
     fld "lineWidth" tNum,
     fld "strokeColor" tNum,
     fld "strokeOpacity" tNum]

/-- part_001 lines 1061-1080:
`abstract class Overlay extends MapKitEvented<OverlayEventTypes>`. -/
def overlayDecl : Decl :=
  clsE "Overlay" (Ty.app1 "MapKitEvented" (tN "OverlayEventTypes"))
    [fld "data" tAny,
     fld "visible" tBool,
     fld "enabled" tBool,
     fld "selected" tBool,
     fld "style" (tN "Style"),
     fld "map" (tN "Map")]

/-- part_001 lines 1083-1103: `interface OverlayOptions`. -/
def overlayOptionsDecl : Decl :=
  ifc "OverlayOptions"
    [fldOpt "data" tAny,
     fldOpt "enabled" tBool,
     fldOpt "selected" tBool,
     fldOpt "visible" tBool,
     fldOpt "style" (tN "Style")]

/-- part_001 lines 1106-1116: `class CircleOverlay extends Overlay`. -/
def circleOverlayDecl : Decl :=
  clsE "CircleOverlay" (tN "Overlay")
    [ctorM [pr "coordinate" (tN "Coordinate"), pr "radius" tNum,
            po "options" (tN "OverlayOptions")],
     fld "coordinate" (tN "Coordinate"),
     fld "radius" tNum]

/-- part_001 lines 1119-1126: `class PolylineOverlay extends Overlay`. -/
def polylineOverlayDecl : Decl :=
  clsE "PolylineOverlay" (tN "Overlay")
    [ctorM [pr "points" (arr (tN "Coordinate")), po "options" (tN "OverlayOptions")],
     fld "points" (arr (tN "Coordinate"))]

/-- part_001 lines 1129-1142: `class PolygonOverlay extends Overlay` —
two constructor overloads. -/
def polygonOverlayDecl : Decl :=
  clsE "PolygonOverlay" (tN "Overlay")
    [ctorM [pr "points" (arr (tN "Coordinate")), po "options" (tN "OverlayOptions")],
     ctorM [pr "points" (arr (arr (tN "Coordinate"))), po "options" (tN "OverlayOptions")],
     fld "points" (u (arr (arr (tN "Coordinate"))) (arr (tN "Coordinate")))]

/-- part_001 lines 1145-1158: `interface TileOverlayConstructorOptions`. -/
def tileOverlayConstructorOptionsDecl : Decl :=
  ifc "TileOverlayConstructorOptions"
    [fld "data" tAny,
     fld "maximumZ" tNum,
     fld "minimumZ" tNum,
     fld "opacity" tNum]

/-- part_001 lines 1160-1167: `interface TileOverlayErrorEvent`. -/
def tileOverlayErrorEventDecl : Decl :=
  ifc "TileOverlayErrorEvent"
    [fld "tileOverlay" (tN "TileOverlay"), fld "tileUrl" tStr]

/-- part_001 lines 1169-1172: `interface TileOverlayEventTypes`. -/
def tileOverlayEventTypesDecl : Decl :=
  ifc "TileOverlayEventTypes" [fld "tile-error" (tN "TileOverlayErrorEvent")]

/-- part_001 lines 1175-1198:
`class TileOverlay extends MapKitEvented<TileOverlayEventTypes>` — two
constructor overloads; the `urlTemplate` property's declared type parses
as a function type returning `string | string`. -/
def tileOverlayDecl : Decl :=
  clsE "TileOverlay" (Ty.app1 "MapKitEvented" (tN "TileOverlayEventTypes"))
    [ctorM [pr "urlTemplate" tStr, po "options" (tN "TileOverlayConstructorOptions")],
     ctorM [pr "urlTemplate"
              (fnT [("x", false, tNum), ("y", false, tNum), ("z", false, tNum),
                    ("scale", false, tNum), ("data", false, tAny)] tStr),
            po "options" (tN "TileOverlayConstructorOptions")],
     fld "urlTemplate"
       (fnT [("x", false, tNum), ("y", false, tNum), ("z", false, tNum),
             ("scale", false, tNum), ("data", false, tAny)] (u tStr tStr)),
     fld "data" tAny,
     mth "reload" [] tVoid,
     fld "opacity" tNum,
     fld "maximumZ" (u tNum tNull),
     fld "minimumZ" (u tNum tNull)]

/-- part_001 lines 1366-1379: `class Search`.  `search` and
`autocomplete` return `number` and `cancel(id: number)` returns
`boolean`. -/
def searchDecl : Decl :=
  cls "Search"
    [ctorM [po "options" (tN "SearchConstructorOptions")],
     mth "search"
       [pr "query" (u tStr (tN "SearchAutocompleteResult")),
        pr "callback"
          (u (tN "SearchDelegate")
             (fnT [("error", false, tN "MapKitError"),
                   ("data", false, tN "SearchResponse")] tVoid)),
        po "options" (tN "SearchOptions")] tNum,
     mth "autocomplete"
       [pr "query" tStr,
        pr "callback"
          (u (tN "SearchDelegate")
             (fnT [("error", false, tN "MapKitError"),
                   ("data", false, tN "SearchAutocompleteResponse")] tVoid)),
        po "options" (tN "SearchOptions")] tNum,
     mth "cancel" [pr "id" tNum] tBool]

/-- part_001 lines 1382-1386: `interface DirectionsConstructorOptions`. -/
def directionsConstructorOptionsDecl : Decl :=
  ifc "DirectionsConstructorOptions" [fldOpt "language" tStr]

/-- part_001 lines 1389-1402: `interface DirectionsRequest`. -/
def directionsRequestDecl : Decl :=
  ifc "DirectionsRequest"
    [fld "origin" (u tStr (u (tN "Coordinate") (tN "Place"))),
     fld "destination" (u tStr (u (tN "Coordinate") (tN "Place"))),
     fld "requestsAlternateRoutes" tBool,
     fld "transportType" (tN "Directions.Transport")]

/-- part_001 lines 1405-1418: `interface RouteStep`. -/
def routeStepDecl : Decl :=
  ifc "RouteStep"
    [fld "path" (arr (tN "Coordinate")),
     fld "instructions" tStr,
     fld "distance" tNum,
     fld "transportType" (tN "Directions.Transport")]

/-- part_001 lines 1421-1446: `interface Route`. -/
def routeDecl : Decl :=
  ifc "Route"
    [fld "polyline" (tN "PolylineOverlay"),
     fld "path" (arr (arr (tN "Coordinate"))),
     fld "steps" (arr (tN "RouteStep")),
     fld "name" tStr,
     fld "distance" tNum,
     fld "expectedTravelTime" tNum,
     fld "transportType" (tN "Directions.Transport")]

/-- part_001 lines 1449-1456: `interface DirectionsResponse`. -/
def directionsResponseDecl : Decl :=
  ifc "DirectionsResponse"
    [fld "request" (tN "DirectionsRequest"),
     fld "routes" (arr (tN "Route"))]

/-- part_001 lines 1459-1469: `class Directions`.  `route` returns
`number`; its callback's parameters are both optional; `cancel(id:
number)` returns `boolean`. -/
def directionsDecl : Decl :=
  cls "Directions"
    [ctorM [po "options" (tN "DirectionsConstructorOptions")],
     mth "route"
       [pr "request" (tN "DirectionsRequest"),
        pr "callback"
          (fnT [("error", true, tN "Error"),
                ("data", true, tN "DirectionsResponse")] tVoid)] tNum,
     mth "cancel" [pr "id" tNum] tBool]

/-- part_001 lines 1471-1482: `enum Transport` in namespace `Directions`. -/
def transportDecl : Decl :=
  enm "Directions.Transport" [eS "Automobile" "Automobile", eS "Walking" "Walking"]

/-- part_001 lines 1485-1495: `interface ItemCollection`. -/
def itemCollectionDecl : Decl :=
  ifc "ItemCollection"
    [fld "data" (tN "object"),
     fld "getFlattenedItemList" (arr (u (tN "Annotation") (tN "Overlay"))),
     fld "items" (arr (u (tN "Annotation") (u (tN "Overlay") (tN "ItemCollection"))))]

/-- The return type `Annotation | Overlay | Annotation[] | Overlay[]`
shared by the item hooks of `GeoJSONDelegate`. -/
def geoItems : Ty :=
  u (tN "Annotation") (u (tN "Overlay") (u (arr (tN "Annotation")) (arr (tN "Overlay"))))

/-- part_001 lines 1498-1532: `interface GeoJSONDelegate` — eleven
optional properties whose types are function types. -/
def geoJSONDelegateDecl : Decl :=
  ifc "GeoJSONDelegate"
    [fldOpt "itemForFeature"
       (fnT [("item", false, u (tN "Annotation") (u (tN "Overlay") tNull)),
             ("geoJSON", false, tN "object")] geoItems),
     fldOpt "itemForFeatureCollection"
       (fnT [("itemCollection", false, tN "ItemCollection"),
             ("geoJSON", false, tN "object")] geoItems),
     fldOpt "itemForLineString"
       (fnT [("overlay", false, tN "PolylineOverlay"),
             ("geoJSON", false, tN "object")] geoItems),
     fldOpt "itemForMultiLineString"
       (fnT [("itemCollection", false, tN "ItemCollection"),
             ("geoJSON", false, tN "object")] geoItems),
     fldOpt "itemForPoint"
       (fnT [("overlay", false, tN "Coordinate"),
             ("geoJSON", false, tN "object")] geoItems),
     fldOpt "itemForMultiPoint"
       (fnT [("itemCollection", false, tN "ItemCollection"),
             ("geoJSON", false, tN "object")] geoItems),
     fldOpt "itemForPolygon"
       (fnT [("overlay", false, tN "PolygonOverlay"),
             ("geoJSON", false, tN "object")] geoItems),
     fldOpt "itemForMultiPolygon"
       (fnT [("itemCollection", false, tN "ItemCollection"),
             ("geoJSON", false, tN "object")] geoItems),
     fldOpt "styleForOverlay"
       (fnT [("overlay", false, tN "Overlay"),
             ("geoJSON", false, tN "object")] (tN "Style")),
     fldOpt "geoJSONDidComplete"
       (fnT [("result", false, tN "ItemCollection"),
             ("geoJSON", false, tN "object")] tVoid),
     fldOpt "geoJSONDidError"
       (fnT [("error", false, tN "Error"),
             ("geoJSON", false, tN "object")] tVoid)]

/-- part_001 line 1535: `export function importGeoJSON(...)`. -/
def importGeoJSONDecl : Decl :=
  fnD "importGeoJSON"
    [pr "data" (u tStr (tN "object")),
     pr "callback"
       (u (tN "GeoJSONDelegate")
          (fnT [("error", false, tN "MapKitError"),
                ("result", false, tN "ItemCollection")] tVoid))]
    (u (tN "Error") (tN "ItemCollection"))

end P1

/-- The declarations of `src/unnamed/part_001`, in source order. -/
def part001 : List TS.Decl :=
  [SH.mapKitErrorDecl, SH.selectEventTypesDecl, SH.mapKitEventedDecl, SH.initDecl,
   SH.mapKitInitSuccessStatusDecl, SH.mapKitInitFailureStatusDecl,
   SH.mapKitInitSuccessEventDecl, SH.mapKitInitFailureEventDecl,
   SH.mapKitEventTypesDecl, SH.addEventListenerDecl, SH.removeEventListenerDecl,
   SH.mapsDecl, SH.languageDecl, SH.buildDecl, SH.mapKitInitOptionsDecl,
   SH.coordinateDecl, SH.mapConstructorOptionsDecl, SH.mapEventDecl,
   SH.overlayEventDecl, SH.userLocationChangeEventDecl, SH.locationErrorDecl,
   SH.userLocationErrorEventDecl, SH.mapEventTypesDecl, SH.mapDecl,
   SH.mapTypesDecl, SH.colorSchemesDecl, SH.distancesDecl,
   SH.mapShowItemsOptionsDecl, SH.mapPointDecl, SH.mapSizeDecl, SH.mapRectDecl,
   SH.coordinateRegionDecl, SH.coordinateSpanDecl, SH.boundingRegionDecl,
   SH.paddingConstructorOptionsDecl, SH.paddingDecl,
   SH.annotationConstructorOptionsDecl, SH.annotationEventDecl,
   SH.annotationEventWithoutSelectTypesDecl, SH.annotationEventTypesDecl,
   SH.annotationDecl, SH.displayPriorityDecl, SH.collisionModeDecl,
   P1.displayAssetDecl, P1.markerAnnotationDecl,
   P1.markerAnnotationConstructorOptionsDecl, P1.imageAnnotationDecl,
   P1.imageAnnotationConstructorOptionsDecl, SH.featureVisibilityDecl,
   P1.annotationCalloutDelegateDecl, P1.fillOpacityRuleDecl,
   P1.lineCapStyleDecl, P1.lineJoinStyleDecl, P1.styleConstructorOptionsDecl,
   P1.styleDecl, SH.overlayEventWithoutSelectTypesDecl, SH.overlayEventTypesDecl,
   P1.overlayDecl, P1.overlayOptionsDecl, P1.circleOverlayDecl,
   P1.polylineOverlayDecl, P1.polygonOverlayDecl,
   P1.tileOverlayConstructorOptionsDecl, P1.tileOverlayErrorEventDecl,
   P1.tileOverlayEventTypesDecl, P1.tileOverlayDecl,
   SH.geocoderConstructorOptionsDecl, SH.geocodeResponseDecl,
   SH.geocoderLookupOptionsDecl, SH.geocoderReverseLookupOptionsDecl,
   SH.placeDecl, SH.geocoderDecl, SH.searchConstructorOptionsDecl,
   SH.searchResponseDecl, SH.searchOptionsDecl, SH.searchAutocompleteResultDecl,
   SH.searchAutocompleteResponseDecl, SH.searchDelegateDecl, P1.searchDecl,
   P1.directionsConstructorOptionsDecl, P1.directionsRequestDecl,
   P1.routeStepDecl, P1.routeDecl, P1.directionsResponseDecl, P1.directionsDecl,
   P1.transportDecl, P1.itemCollectionDecl, P1.geoJSONDelegateDecl,
   P1.importGeoJSONDecl, SH.domPointDecl]

/-- The three declaration files of the repository. -/
def repoFiles : List (List TS.Decl) := [mapkitDTs, part000, part001]

end Src

namespace TS

/-! ## Queries over the embedded declarations -/

/-- The name introduced by a declaration. -/
def Decl.name : Decl → String
  | .classDecl n _ _ _ _ => n
  | .interfaceDecl n _ _ => n
  | .enumDecl n _ => n
  | .funDecl n _ _ _ _ => n
  | .varDecl n _ => n
  | .typeAlias n _ => n

/-- The member list of a class or interface declaration (empty otherwise). -/
def Decl.members : Decl → List Member
  | .classDecl _ _ _ _ ms => ms
  | .interfaceDecl _ _ ms => ms
  | _ => []

/-- Look a declaration up by name in a file. -/
def findDecl (f : List Decl) (n : String) : Option Decl :=
  f.find? fun d => d.name = n

/-- Whether a file declares the given top-level name. -/
def declaresName (f : List Decl) (n : String) : Bool :=
  (findDecl f n).isSome

/-- Look up a method member named `m` of the class or interface `c`. -/
def findMethod (f : List Decl) (c m : String) : Option Member :=
  (((findDecl f c).map Decl.members).getD []).find? fun mem =>
    match mem with
    | .method nm _ _ _ _ _ => nm = m
    | _ => false

/-- Look up a field member named `n` of the class or interface `c`. -/
def findField (f : List Decl) (c n : String) : Option Member :=
  (((findDecl f c).map Decl.members).getD []).find? fun mem =>
    match mem with
    | .field nm _ _ => nm = n
    | _ => false

/-- Whether the class or interface `c` of file `f` declares a method `m`. -/
def methodDeclared (f : List Decl) (c m : String) : Bool :=
  (findMethod f c m).isSome

/-- The declared return type of a method member (`none` for non-methods;
`some none` would arise from a method with no return annotation). -/
def Member.retTy : Member → Option Ty
  | .method _ _ _ r _ _ => r
  | _ => none

/-- The parameters of a method or constructor member. -/
def Member.paramsOf : Member → List Param
  | .method _ _ ps _ _ _ => ps
  | .ctor ps _ => ps
  | _ => []

/-- The declared return type of method `m` of class `c` in file `f`:
`none` when the method is absent, `some r` when it is declared with
return annotation `r` (`r = none` meaning no annotation). -/
def methodRet (f : List Decl) (c m : String) : Option (Option Ty) :=
  (findMethod f c m).map Member.retTy

/-- Whether method `m` of class `c` is declared with return type `number`. -/
def opReturnsNumber (f : List Decl) (c m : String) : Bool :=
  methodRet f c m = some (some tNum)

/-- Whether class `c` declares a `cancel` method whose parameter list is
a single `id` parameter of type `number`. -/
def cancelTakesNumberId (f : List Decl) (c : String) : Bool :=
  match findMethod f c "cancel" with
  | some (.method _ _ ps _ _ _) => ps.map (fun p => (p.name, p.ty)) = [("id", some tNum)]
  | _ => false

/-- The parameter lists of the constructor overloads of class `c`. -/
def ctorParamLists (f : List Decl) (c : String) : List (List Param) :=
  (((findDecl f c).map Decl.members).getD []).filterMap fun mem =>
    match mem with
    | .ctor ps _ => some ps
    | _ => none

/-- Whether a type is a host-element-or-selector type, i.e. the union of
`string` with a DOM element type. -/
def hostSelectorTy (t : Ty) : Bool :=
  t = u tStr (tN "Element") || t = u tStr (tN "HTMLElement")

/-- Whether some constructor overload of class `c` takes a
host-element-or-selector parameter together with an options-object
parameter (a parameter named `options` whose type is a named options
interface). -/
def ctorTakesHostAndOptions (f : List Decl) (c : String) : Bool :=
  (ctorParamLists f c).any fun ps =>
    match ps with
    | [p1, p2] =>
        (match p1.ty with | some t => hostSelectorTy t | none => false) &&
        (p2.name = "options" && (match p2.ty with | some (Ty.named _) => true | _ => false))
    | _ => false

/-- The `options` parameter of the first constructor overload of class `c`. -/
def ctorOptionsParam (f : List Decl) (c : String) : Option Param :=
  (((ctorParamLists f c).head?).getD []).find? fun p => p.name = "options"

/-- The names of the named (non-constructor) members of class or
interface `c`, in declaration order. -/
def memberNames (f : List Decl) (c : String) : List String :=
  (((findDecl f c).map Decl.members).getD []).filterMap fun mem =>
    match mem with
    | .field n _ _ => some n
    | .method n _ _ _ _ _ => some n
    | .ctor _ _ => none

/-- The enum declarations of a file. -/
def enumDecls (f : List Decl) : List Decl :=
  f.filter fun d => match d with | .enumDecl _ _ => true | _ => false

/-- The member list of the enum named `n` in file `f`. -/
def enumMembersOf (f : List Decl) (n : String) : Option (List EnumMember) :=
  match findDecl f n with
  | some (.enumDecl _ ms) => some ms
  | _ => none

/-- Whether the character list `p` occurs contiguously inside `l`. -/
def charInfix (p : List Char) : List Char → Bool
  | [] => p.isEmpty
  | c :: rest => List.isPrefixOf p (c :: rest) || charInfix p rest

/-- Whether the string `sub` occurs inside `s`. -/
def strContains (s sub : String) : Bool := charInfix sub.toList s.toList

/-- Whether a declaration's name marks it as describing failures
(contains `Error` or `Failure`). -/
def failureNamed (d : Decl) : Bool :=
  strContains d.name "Error" || strContains d.name "Failure"

/-- Whether a member carries no function body. -/
def Member.bodyless : Member → Bool
  | .field _ _ _ => true
  | .method _ _ _ _ _ b => b.isNone
  | .ctor _ b => b.isNone

/-- Whether a declaration carries no executable definition: all methods
and constructors are signature-only and function declarations have no
body.  Enum, variable and type-alias declarations are type shapes. -/
def Decl.bodyless : Decl → Bool
  | .classDecl _ _ _ _ ms => ms.all Member.bodyless
  | .interfaceDecl _ _ ms => ms.all Member.bodyless
  | .enumDecl _ _ => true
  | .funDecl _ _ _ _ b => b.isNone
  | .varDecl _ _ => true
  | .typeAlias _ _ => true

/-- Whether every declaration of a file is signature-only. -/
def fileBodyless (f : List Decl) : Bool := f.all Decl.bodyless

/-- Whether the method `m` of class `c` of file `f` is declared and has
a body. -/
def methodHasBody (f : List Decl) (c m : String) : Bool :=
  match findMethod f c m with
  | some (.method _ _ _ _ _ b) => b.isSome
  | _ => false

/-! ## A small model of structural option-object compatibility.

TypeScript accepts an object literal as an argument for a parameter of
interface type exactly when the literal's fields satisfy the interface
shape: each provided field must be declared with the same type and each
non-optional declared field must be provided.  We model an object value
by the list of its fields with the declared type of each value. -/

/-- The field signatures (name, declared type, optionality) of the class
or interface `n` of file `f`. -/
def fieldSigs (f : List Decl) (n : String) : List (String × Option Ty × Bool) :=
  (((findDecl f n).map Decl.members).getD []).filterMap fun mem =>
    match mem with
    | .field nm t o => some (nm, t, o)
    | _ => none

/-- Whether every field of the shape is optional. -/
def allFieldsOptional (fs : List (String × Option Ty × Bool)) : Bool :=
  fs.all fun fs => fs.2.2

/-- Whether every field provided by the value `v` is declared by the
shape with the same type. -/
def entriesMatch (v : List (String × Ty)) (fs : List (String × Option Ty × Bool)) : Bool :=
  v.all fun e => fs.any fun fs => fs.1 = e.1 && fs.2.1 = some e.2

/-- Whether every required field of the shape is provided by `v` with
the declared type. -/
def requiredPresent (v : List (String × Ty)) (fs : List (String × Option Ty × Bool)) : Bool :=
  fs.all fun fs => fs.2.2 || v.any fun e => e.1 = fs.1 && some e.2 = fs.2.1

/-- Whether the value `v` satisfies the shape `fs`, i.e. would be
accepted by the type checker for a parameter of that interface type. -/
def satisfiesShape (v : List (String × Ty)) (fs : List (String × Option Ty × Bool)) : Bool :=
  entriesMatch v fs && requiredPresent v fs

end TS

open TS

/-! ## Formalized claims -/

/-- The five asynchronous request operations (class, method) named by the
spec: `Geocoder.lookup`, `Geocoder.reverseLookup`, `Search.search`,
`Search.autocomplete`, `Directions.route`. -/
def asyncOps : List (String × String) :=
  [("Geocoder", "lookup"), ("Geocoder", "reverseLookup"),
   ("Search", "search"), ("Search", "autocomplete"),
   ("Directions", "route")]

/-- Claim C1 as stated: for every one of the five asynchronous request
operations, in every file of the repository in which it is declared, the
declared return type is `number` and the declaring class also declares a
`cancel(id: number)` method. -/
def claimC1Holds : Bool :=
  Src.repoFiles.all fun f => asyncOps.all fun op =>
    !(methodDeclared f op.1 op.2) ||
      (opReturnsNumber f op.1 op.2 && cancelTakesNumberId f op.1)

/-- The per-instance classes named by the spec sentence behind claim C2. -/
def instanceClasses : List String :=
  ["Map", "Annotation", "Geocoder", "Search", "Directions"]

/-- Claim C2 as stated: every one of the named classes, in every file in
which it is declared, has a constructor taking a host element or selector
together with an options object. -/
def claimC2Holds : Bool :=
  Src.repoFiles.all fun f => instanceClasses.all fun c =>
    !(declaresName f c) || ctorTakesHostAndOptions f c

/-- The per-geometry-type override hooks of a GeoJSON import delegate. -/
def geoHooks : List String :=
  ["itemForPoint", "itemForMultiPoint", "itemForLineString",
   "itemForMultiLineString", "itemForPolygon", "itemForMultiPolygon",
   "itemForFeature", "itemForFeatureCollection"]

/-- Whether the class or interface `c` of file `f` declares `n` as an
optional property of function type. -/
def optionalFnField (f : List Decl) (c n : String) : Bool :=
  match findField f c n with
  | some (.field _ (some (Ty.fn _ _)) true) => true
  | _ => false

/-- Claim C5 as stated: every declaration file declares `importGeoJSON`
and a delegate type providing a distinct optional hook for each GeoJSON
geometry type. -/
def claimC5Holds : Bool :=
  Src.repoFiles.all fun f =>
    declaresName f "importGeoJSON" &&
    geoHooks.all fun h => optionalFnField f "GeoJSONDelegate" h

/-- The six cross-type conversion signatures named by claim C8:
(class, method, result type). -/
def conversionSigs : List (String × String × String) :=
  [("Coordinate", "toMapPoint", "MapPoint"),
   ("MapPoint", "toCoordinate", "Coordinate"),
   ("MapRect", "toCoordinateRegion", "CoordinateRegion"),
   ("CoordinateRegion", "toMapRect", "MapRect"),
   ("CoordinateRegion", "toBoundingRegion", "BoundingRegion"),
   ("BoundingRegion", "toCoordinateRegion", "CoordinateRegion")]

/-- Whether the class `c` of file `f` declares method `m` with no
parameters, declared return type `r`, and no body. -/
def conversionSigOk (f : List Decl) (c m r : String) : Bool :=
  decide (findMethod f c m = some (mth m [] (tN r)))

/-! ## Theorems -/

/-- When every field of a shape is optional, any value all of whose
entries match declared fields satisfies the shape. -/
theorem satisfiesShape_of_allOptional {v : List (String × Ty)}
    {fs : List (String × Option Ty × Bool)}
    (hopt : allFieldsOptional fs = true)
    (h : entriesMatch v fs = true) : satisfiesShape v fs = true := by
  unfold satisfiesShape
  rw [h, Bool.true_and]
  unfold requiredPresent
  unfold allFieldsOptional at hopt
  rw [List.all_eq_true] at hopt ⊢
  intro x hx
  rw [Bool.or_eq_true]
  exact Or.inl (hopt x hx)

/-- C1, counterexample.  The claim fails on `src/mapkit.d.ts`:
`Search.search` is declared there, but with no declared return type at
all, and the `Search` class of that file declares no `cancel` member
(`Geocoder.reverseLookup` of the same file also lacks a declared return
type). -/
theorem C1_counterexample :
    claimC1Holds = false ∧
    methodDeclared Src.mapkitDTs "Search" "search" = true ∧
    methodRet Src.mapkitDTs "Search" "search" = some none ∧
    methodDeclared Src.mapkitDTs "Search" "cancel" = false ∧
    methodRet Src.mapkitDTs "Geocoder" "reverseLookup" = some none := by decide

/-- C1, amended.  In `part_001` all five operations are declared
returning `number` and each declaring class declares `cancel(id: number)`.
In `part_000`, the four `Geocoder`/`Search` operations return `number`
and `Geocoder` declares `cancel(id: number)`, but `Search` declares no
`cancel` and `Directions` is absent.  In `mapkit.d.ts`, only
`Geocoder.lookup` is declared returning `number` — `reverseLookup`,
`search` and `autocomplete` carry no return annotation — `Geocoder`
declares `cancel(id: number)` (itself without a return annotation),
`Search` declares no `cancel`, and `Directions` is absent. -/
theorem C1_amended :
    (asyncOps.all fun op =>
       methodDeclared Src.part001 op.1 op.2 &&
       opReturnsNumber Src.part001 op.1 op.2 &&
       cancelTakesNumberId Src.part001 op.1) = true ∧
    opReturnsNumber Src.part000 "Geocoder" "lookup" = true ∧
    opReturnsNumber Src.part000 "Geocoder" "reverseLookup" = true ∧
    opReturnsNumber Src.part000 "Search" "search" = true ∧
    opReturnsNumber Src.part000 "Search" "autocomplete" = true ∧
    cancelTakesNumberId Src.part000 "Geocoder" = true ∧
    methodDeclared Src.part000 "Search" "cancel" = false ∧
    findDecl Src.part000 "Directions" = none ∧
    opReturnsNumber Src.mapkitDTs "Geocoder" "lookup" = true ∧
    methodRet Src.mapkitDTs "Geocoder" "reverseLookup" = some none ∧
    methodRet Src.mapkitDTs "Search" "search" = some none ∧
    methodRet Src.mapkitDTs "Search" "autocomplete" = some none ∧
    cancelTakesNumberId Src.mapkitDTs "Geocoder" = true ∧
    methodDeclared Src.mapkitDTs "Search" "cancel" = false ∧
    findDecl Src.mapkitDTs "Directions" = none := by decide

/-- C2, counterexample.  The claim fails already on `Geocoder` (in every
file): its only constructor takes a single `options` parameter of type
`GeocoderConstructorOptions` — there is no host-element/selector
parameter. -/
theorem C2_counterexample :
    claimC2Holds = false ∧
    declaresName Src.mapkitDTs "Geocoder" = true ∧
    ctorParamLists Src.mapkitDTs "Geocoder" =
      [[po "options" (tN "GeocoderConstructorOptions")]] ∧
    ctorTakesHostAndOptions Src.mapkitDTs "Geocoder" = false := by decide

/-- C2, amended.  Only `Map` has the host-element/selector-plus-options
constructor (`parent?: string | Element` in mapkit.d.ts, `parent?:
string | HTMLElement` in the other two files, then `options?:
MapConstructorOptions`).  `Annotation` takes a coordinate, a factory
function and an optional options object; `Geocoder`, `Search` (all three
files) and `Directions` (declared only in part_001) take only an
optional options object. -/
theorem C2_amended :
    ctorParamLists Src.mapkitDTs "Map" =
      [[po "parent" (u tStr (tN "Element")), po "options" (tN "MapConstructorOptions")]] ∧
    ctorParamLists Src.part000 "Map" =
      [[po "parent" (u tStr (tN "HTMLElement")), po "options" (tN "MapConstructorOptions")]] ∧
    ctorParamLists Src.part001 "Map" =
      [[po "parent" (u tStr (tN "HTMLElement")), po "options" (tN "MapConstructorOptions")]] ∧
    (Src.repoFiles.all fun f => ctorTakesHostAndOptions f "Map") = true ∧
    (Src.repoFiles.all fun f =>
       decide (ctorParamLists f "Annotation" =
         [[pr "coordinate" (tN "Coordinate"), pr "factory" (tN "Function"),
           po "options" (tN "AnnotationConstructorOptions")]])) = true ∧
    (Src.repoFiles.all fun f =>
       decide (ctorParamLists f "Geocoder" =
         [[po "options" (tN "GeocoderConstructorOptions")]])) = true ∧
    (Src.repoFiles.all fun f =>
       decide (ctorParamLists f "Search" =
         [[po "options" (tN "SearchConstructorOptions")]])) = true ∧
    ctorParamLists Src.part001 "Directions" =
      [[po "options" (tN "DirectionsConstructorOptions")]] ∧
    findDecl Src.mapkitDTs "Directions" = none ∧
    findDecl Src.part000 "Directions" = none := by decide

/-- C3, counterexample.  The `Geocoder` and `Search` class declarations
of `mapkit.d.ts` are not equal to those of `part_001`: among other
differences, `mapkit.d.ts` declares `Geocoder.reverseLookup` without a
return type where `part_001` declares `number`, and the `Search` of
`mapkit.d.ts` has no `cancel` member where `part_001`'s does. -/
theorem C3_counterexample :
    findDecl Src.mapkitDTs "Geocoder" ≠ findDecl Src.part001 "Geocoder" ∧
    findDecl Src.mapkitDTs "Search" ≠ findDecl Src.part001 "Search" ∧
    methodRet Src.mapkitDTs "Geocoder" "reverseLookup" = some none ∧
    methodRet Src.part001 "Geocoder" "reverseLookup" = some (some tNum) ∧
    methodDeclared Src.mapkitDTs "Search" "cancel" = false ∧
    methodDeclared Src.part001 "Search" "cancel" = true := by decide

/-- C3, amended.  The two `Geocoder` declarations agree in member names
and order, and both declare `lookup` returning `number`; but they are
not equal: `mapkit.d.ts` omits the return types of `reverseLookup`
(`number` in part_001) and `cancel` (`boolean` in part_001) and leaves
the lookup callbacks' `error` parameters unannotated (`MapKitError` in
part_001).  The `Search` surfaces differ further: `mapkit.d.ts`'s
`Search` declares only `search` and `autocomplete`, both without a
return annotation, while `part_001`'s declares them returning `number`
and adds `cancel` returning `boolean`. -/
theorem C3_amended :
    memberNames Src.mapkitDTs "Geocoder" = memberNames Src.part001 "Geocoder" ∧
    memberNames Src.mapkitDTs "Search" = ["search", "autocomplete"] ∧
    memberNames Src.part001 "Search" = ["search", "autocomplete", "cancel"] ∧
    methodRet Src.mapkitDTs "Geocoder" "lookup" = some (some tNum) ∧
    methodRet Src.part001 "Geocoder" "lookup" = some (some tNum) ∧
    methodRet Src.mapkitDTs "Geocoder" "reverseLookup" = some none ∧
    methodRet Src.part001 "Geocoder" "reverseLookup" = some (some tNum) ∧
    methodRet Src.mapkitDTs "Geocoder" "cancel" = some none ∧
    methodRet Src.part001 "Geocoder" "cancel" = some (some tBool) ∧
    methodRet Src.mapkitDTs "Search" "search" = some none ∧
    methodRet Src.part001 "Search" "search" = some (some tNum) ∧
    methodRet Src.mapkitDTs "Search" "autocomplete" = some none ∧
    methodRet Src.part001 "Search" "autocomplete" = some (some tNum) ∧
    ((findMethod Src.mapkitDTs "Geocoder" "lookup").map Member.paramsOf).map
        (List.map Param.name) =
      ((findMethod Src.part001 "Geocoder" "lookup").map Member.paramsOf).map
        (List.map Param.name) ∧
    (findMethod Src.mapkitDTs "Geocoder" "lookup") ≠
      (findMethod Src.part001 "Geocoder" "lookup") := by decide

/-- C4.  `part_000` and `part_001` declare the error shape `MapKitError`
with exactly a numeric `code` field and a string `message` field;
`LocationError` enumerates exactly permission denied (1), position
unavailable (2), timeout (3) and not-initialized (4);
`MapKitInitFailureStatus` enumerates exactly unauthorized and
too-many-requests; and across the whole repository the only enum
declarations whose names speak of errors or failures are exactly these
two (in each of the two files; `mapkit.d.ts` has none). -/
theorem C4_failure_codes :
    findDecl Src.part000 "MapKitError" =
      some (ifc "MapKitError" [fld "code" tNum, fld "message" tStr]) ∧
    findDecl Src.part001 "MapKitError" =
      some (ifc "MapKitError" [fld "code" tNum, fld "message" tStr]) ∧
    enumMembersOf Src.part000 "LocationError" =
      some [eI "PERMISSION_DENIED" 1, eI "POSITION_UNAVAILABLE" 2,
            eI "TIMEOUT" 3, eI "MAPKIT_NOT_INITIALIZED" 4] ∧
    enumMembersOf Src.part001 "LocationError" =
      some [eI "PERMISSION_DENIED" 1, eI "POSITION_UNAVAILABLE" 2,
            eI "TIMEOUT" 3, eI "MAPKIT_NOT_INITIALIZED" 4] ∧
    enumMembersOf Src.part000 "MapKitInitFailureStatus" =
      some [eS "unauthorized" "Unauthorized", eS "tooManyRequests" "Too Many Requests"] ∧
    enumMembersOf Src.part001 "MapKitInitFailureStatus" =
      some [eS "unauthorized" "Unauthorized", eS "tooManyRequests" "Too Many Requests"] ∧
    (enumDecls Src.mapkitDTs).filter failureNamed = [] ∧
    (enumDecls Src.part000).filter failureNamed =
      [Src.SH.mapKitInitFailureStatusDecl, Src.SH.locationErrorDecl] ∧
    (enumDecls Src.part001).filter failureNamed =
      [Src.SH.mapKitInitFailureStatusDecl, Src.SH.locationErrorDecl] := by decide

/-- C5, counterexample.  The claim quantifies over every declaration
file, but neither `mapkit.d.ts` nor `part_000` declares `importGeoJSON`
(or a `GeoJSONDelegate`); only `part_001` does. -/
theorem C5_counterexample :
    claimC5Holds = false ∧
    declaresName Src.mapkitDTs "importGeoJSON" = false ∧
    declaresName Src.part000 "importGeoJSON" = false ∧
    declaresName Src.mapkitDTs "GeoJSONDelegate" = false ∧
    declaresName Src.part000 "GeoJSONDelegate" = false := by decide

/-- C5, amended.  `part_001` (alone) declares `importGeoJSON`, taking
the data (`string | object`) and a delegate-or-callback, and its
`GeoJSONDelegate` provides a distinct optional function-typed hook for
each GeoJSON geometry type: point, multipoint, line string, multiline
string, polygon, multipolygon, feature and feature collection. -/
theorem C5_amended :
    findDecl Src.part001 "importGeoJSON" =
      some (fnD "importGeoJSON"
        [pr "data" (u tStr (tN "object")),
         pr "callback"
           (u (tN "GeoJSONDelegate")
              (fnT [("error", false, tN "MapKitError"),
                    ("result", false, tN "ItemCollection")] tVoid))]
        (u (tN "Error") (tN "ItemCollection"))) ∧
    (geoHooks.all fun h => optionalFnField Src.part001 "GeoJSONDelegate" h) = true ∧
    geoHooks.Nodup := by decide

/-- C6.  Every field of `MapConstructorOptions` is optional (in each of
the three files), so any value whose entries match declared fields
satisfies the shape and is accepted for the `Map` constructor's
`options` parameter; and that parameter, declared with type
`MapConstructorOptions`, is itself optional, so the options argument may
be omitted entirely. -/
theorem C6_map_options (v : List (String × Ty))
    (h0 : entriesMatch v (fieldSigs Src.mapkitDTs "MapConstructorOptions") = true)
    (h1 : entriesMatch v (fieldSigs Src.part000 "MapConstructorOptions") = true)
    (h2 : entriesMatch v (fieldSigs Src.part001 "MapConstructorOptions") = true) :
    allFieldsOptional (fieldSigs Src.mapkitDTs "MapConstructorOptions") = true ∧
    allFieldsOptional (fieldSigs Src.part000 "MapConstructorOptions") = true ∧
    allFieldsOptional (fieldSigs Src.part001 "MapConstructorOptions") = true ∧
    satisfiesShape v (fieldSigs Src.mapkitDTs "MapConstructorOptions") = true ∧
    satisfiesShape v (fieldSigs Src.part000 "MapConstructorOptions") = true ∧
    satisfiesShape v (fieldSigs Src.part001 "MapConstructorOptions") = true ∧
    ctorOptionsParam Src.mapkitDTs "Map" = some (po "options" (tN "MapConstructorOptions")) ∧
    ctorOptionsParam Src.part000 "Map" = some (po "options" (tN "MapConstructorOptions")) ∧
    ctorOptionsParam Src.part001 "Map" = some (po "options" (tN "MapConstructorOptions")) :=
  ⟨by decide, by decide, by decide,
   satisfiesShape_of_allOptional (by decide) h0,
   satisfiesShape_of_allOptional (by decide) h1,
   satisfiesShape_of_allOptional (by decide) h2,
   by decide, by decide, by decide⟩

/-- Witness for C6 at the concrete value `{ rotation: number }`. -/
theorem C6_map_options_witness :
    entriesMatch [("rotation", tNum)] (fieldSigs Src.mapkitDTs "MapConstructorOptions") = true ∧
    entriesMatch [("rotation", tNum)] (fieldSigs Src.part000 "MapConstructorOptions") = true ∧
    entriesMatch [("rotation", tNum)] (fieldSigs Src.part001 "MapConstructorOptions") = true ∧
    (allFieldsOptional (fieldSigs Src.mapkitDTs "MapConstructorOptions") = true ∧
     allFieldsOptional (fieldSigs Src.part000 "MapConstructorOptions") = true ∧
     allFieldsOptional (fieldSigs Src.part001 "MapConstructorOptions") = true ∧
     satisfiesShape [("rotation", tNum)] (fieldSigs Src.mapkitDTs "MapConstructorOptions") = true ∧
     satisfiesShape [("rotation", tNum)] (fieldSigs Src.part000 "MapConstructorOptions") = true ∧
     satisfiesShape [("rotation", tNum)] (fieldSigs Src.part001 "MapConstructorOptions") = true ∧
     ctorOptionsParam Src.mapkitDTs "Map" = some (po "options" (tN "MapConstructorOptions")) ∧
     ctorOptionsParam Src.part000 "Map" = some (po "options" (tN "MapConstructorOptions")) ∧
     ctorOptionsParam Src.part001 "Map" = some (po "options" (tN "MapConstructorOptions"))) :=
  ⟨by decide, by decide, by decide,
   C6_map_options [("rotation", tNum)] (by decide) (by decide) (by decide)⟩

/-- C7.  Each of the three files declares a top-level `init` whose single
parameter is `options: MapKitInitOptions`, returning `void`; and each
file's `MapKitInitOptions` consists of exactly a required
`authorizationCallback` — a function receiving a `done` callback that
takes a string token — and an optional `language` string. -/
theorem C7_init :
    findDecl Src.mapkitDTs "init" =
      some (fnD "init" [pr "options" (tN "MapKitInitOptions")] tVoid) ∧
    findDecl Src.part000 "init" =
      some (fnD "init" [pr "options" (tN "MapKitInitOptions")] tVoid) ∧
    findDecl Src.part001 "init" =
      some (fnD "init" [pr "options" (tN "MapKitInitOptions")] tVoid) ∧
    (Src.repoFiles.all fun f =>
       decide (fieldSigs f "MapKitInitOptions" =
         [("authorizationCallback",
           some (fnT [("done", false, fnT [("jwt", false, tStr)] tVoid)] tVoid),
           false),
          ("language", some tStr, true)])) = true := by decide

/-- C8.  In each of the three files, each of the six cross-type
conversion methods is declared with exactly the stated parameterless
signature, and none of them carries a body — the repository declares and
never implements them. -/
theorem C8_conversions :
    (Src.repoFiles.all fun f => conversionSigs.all fun cs =>
       conversionSigOk f cs.1 cs.2.1 cs.2.2 &&
       !(methodHasBody f cs.1 cs.2.1)) = true := by decide

/-- C9.  In every file of the repository, `Annotation.DisplayPriority`
declares exactly the three members `Low = 250`, `High = 750`,
`Required = 1000`, and `Annotation.CollisionMode` declares exactly the
two members `Circle` and `Rectangle`. -/
theorem C9_annotation_enums :
    (Src.repoFiles.all fun f =>
       decide (enumMembersOf f "Annotation.DisplayPriority" =
         some [eI "Low" 250, eI "High" 750, eI "Required" 1000]) &&
       decide (enumMembersOf f "Annotation.CollisionMode" =
         some [eS "Circle" "Circle", eS "Rectangle" "Rectangle"])) = true := by decide

/-- C10.  Every declaration of every file of the repository is
signature-only: no method, constructor or function declaration carries a
body, and class, interface and enum members are type shapes. -/
theorem C10_no_bodies : Src.repoFiles.all fileBodyless = true := by decide
